import Mathlib

/-!
Verification development for the Nokia FastMile / UniFi PoE integration
repository.  The Python API-client layer is shallowly embedded: JSON-like
values exchanged with the devices become the inductive type `Json`, the
dictionary/list primitives the code relies on (`in`, `len`, indexing,
`dict.get`, truthiness, `==`) become executable Lean functions, fallible
code returns `Except PyErr` or `Option`, and the HTTP environment (the
sequence of responses the devices send back) is passed in explicitly.
-/

set_option autoImplicit false

namespace PyModel

/-- JSON-like Python values as exchanged by the device APIs.  Numbers are
modelled as integers: every numeric field this code compares or stores
(`port_idx`, status codes, uptime seconds) is an integer in the controller
payloads. -/
inductive Json where
  | null
  | bool (b : Bool)
  | num (n : Int)
  | str (s : String)
  | arr (l : List Json)
  | obj (l : List (String × Json))

/-- Python exceptions that the embedded fragments can raise, plus the
repository's own `UniFiAPIError`. -/
inductive PyErr where
  | typeError
  | keyError (k : String)
  | indexError
  | attrError
  | apiError (msg : String)
deriving Repr, DecidableEq

/-- First binding of a key in a dict association list (Python dicts hold
each key once; lookup returns its value). -/
def lookupKey : List (String × Json) → String → Option Json
  | [], _ => none
  | (k, v) :: rest, key => if k = key then some v else lookupKey rest key

mutual

/-- Python `==` on the values this code compares.  Scalar cases follow
Python exactly (including `True == 1`); sequences compare elementwise.
The code under verification only ever compares scalars (`port_idx`
integers, `rc` strings), for which this is exact. -/
def pyEq : Json → Json → Bool
  | .null, .null => true
  | .bool a, .bool b => a == b
  | .bool a, .num n => (if a then (1 : Int) else 0) == n
  | .num n, .bool b => n == (if b then (1 : Int) else 0)
  | .num a, .num b => a == b
  | .str a, .str b => a == b
  | .arr a, .arr b => pyEqList a b
  | .obj a, .obj b => pyEqObj a b
  | _, _ => false

/-- Elementwise equality of two JSON lists. -/
def pyEqList : List Json → List Json → Bool
  | [], [] => true
  | x :: xs, y :: ys => pyEq x y && pyEqList xs ys
  | _, _ => false

/-- Pairwise equality of two dict entry lists. -/
def pyEqObj : List (String × Json) → List (String × Json) → Bool
  | [], [] => true
  | (k1, v1) :: xs, (k2, v2) :: ys => k1 == k2 && pyEq v1 v2 && pyEqObj xs ys
  | _, _ => false

end

/-- Python truthiness (`if not x`) for the values above. -/
def pyTruthy : Json → Bool
  | .null => false
  | .bool b => b
  | .num n => n != 0
  | .str s => s ≠ ""
  | .arr l => !l.isEmpty
  | .obj l => !l.isEmpty

/-- Is `needle` a contiguous sub-list of `hay` (Python `sub in str`)? -/
def containsSub (needle : List Char) : List Char → Bool
  | [] => needle.isEmpty
  | c :: rest => needle.isPrefixOf (c :: rest) || containsSub needle rest

/-- Python `x in c` (membership test). -/
def pyIn (x : Json) : Json → Except PyErr Bool
  | .obj l => .ok (l.any fun p => pyEq (.str p.1) x)
  | .arr l => .ok (l.any fun e => pyEq e x)
  | .str s =>
    match x with
    | .str sub => .ok (containsSub sub.data s.data)
    | _ => .error .typeError
  | _ => .error .typeError

/-- Python `len`. -/
def pyLen : Json → Except PyErr Nat
  | .arr l => .ok l.length
  | .obj l => .ok l.length
  | .str s => .ok s.length
  | _ => .error .typeError

/-- Python subscription `c[k]` for dicts and lists (negative list indices
wrap as in Python). -/
def pyGetItem : Json → Json → Except PyErr Json
  | .obj l, .str k =>
    match lookupKey l k with
    | some v => .ok v
    | none => .error (.keyError k)
  | .obj _, _ => .error (.keyError "")
  | .arr l, .num i =>
    let j := if i < 0 then i + l.length else i
    if 0 ≤ j ∧ j.toNat < l.length then .ok (l.getD j.toNat .null) else .error .indexError
  | .arr _, _ => .error .typeError
  | _, _ => .error .typeError

/-- Python `d.get(k, dflt)`: only dicts have `.get`; anything else raises
`AttributeError`. -/
def pyDictGet (j : Json) (k : String) (dflt : Json) : Except PyErr Json :=
  match j with
  | .obj l => .ok ((lookupKey l k).getD dflt)
  | _ => .error .attrError

/-- Pure dict `.get` with default, for values already known to be dicts. -/
def objGetD (l : List (String × Json)) (k : String) (dflt : Json) : Json :=
  (lookupKey l k).getD dflt

/-- Python `d[k] = v`: update the existing binding in place, else append. -/
def objSet : List (String × Json) → String → Json → List (String × Json)
  | [], k, v => [(k, v)]
  | (k0, v0) :: rest, k, v =>
    if k0 = k then (k0, v) :: rest else (k0, v0) :: objSet rest k v

/-- Python iteration (`for x in c`, `list.extend(c)`). -/
def pyIterList : Json → Except PyErr (List Json)
  | .arr l => .ok l
  | .str s => .ok (s.data.map fun c => .str c.toString)
  | .obj l => .ok (l.map fun p => .str p.1)
  | _ => .error .typeError

/-- ASCII branch of Python `str.lower` (the only branch exercised by MAC
addresses and the other ASCII payloads of this repository); all other
characters are left unchanged. -/
def lowerChar (c : Char) : Char :=
  if 65 ≤ c.toNat ∧ c.toNat ≤ 90 then Char.ofNat (c.toNat + 32) else c

/-- Python `s.lower()` on the ASCII fragment. -/
def pyLower (s : String) : String :=
  ⟨s.data.map lowerChar⟩

/-- Python `s.replace(a, b)` where both arguments are single characters
(the only form the source uses), which is then a character-wise map. -/
def strReplaceChar (a b : Char) (s : String) : String :=
  ⟨s.data.map fun c => if c = a then b else c⟩

end PyModel

namespace NokiaSensor

/-- `format_uptime` from `custom_components/nokia_fastmile/sensor.py`:
`if not seconds` returns `"Unknown"`, otherwise `divmod` chains down to
minutes and formats `"{days}d {hours}h {minutes}m"`.  `Int.ediv`/`Int.emod`
agree with Python's `divmod` for the positive divisors used here. -/
def format_uptime (seconds : Int) : String :=
  if seconds = 0 then "Unknown"
  else
    let days := Int.ediv seconds 86400
    let remainder := Int.emod seconds 86400
    let hours := Int.ediv remainder 3600
    let remainder2 := Int.emod remainder 3600
    let minutes := Int.ediv remainder2 60
    toString days ++ "d " ++ toString hours ++ "h " ++ toString minutes ++ "m"

end NokiaSensor

namespace NokiaMonitor

/-- `format_uptime` from `nokia_fastmile_monitor.py`: no zero special case,
and the trailing seconds are kept: `"{days}d {hours}h {minutes}m {seconds}s"`. -/
def format_uptime (seconds : Int) : String :=
  let days := Int.ediv seconds 86400
  let remainder := Int.emod seconds 86400
  let hours := Int.ediv remainder 3600
  let remainder2 := Int.emod remainder 3600
  let minutes := Int.ediv remainder2 60
  let secs := Int.emod remainder2 60
  toString days ++ "d " ++ toString hours ++ "h " ++ toString minutes ++ "m "
    ++ toString secs ++ "s"

end NokiaMonitor

namespace UniFi

open PyModel

/-- MAC normalization as performed by `get_device_by_mac` and the mutation
helpers in `custom_components/unifi_poe/unifi_api.py`:
`mac.lower().replace("-", ":").replace("_", ":")`. -/
def normalizeMac (s : String) : String :=
  strReplaceChar '_' ':' (strReplaceChar '-' ':' (pyLower s))

/-- The character-wise action of `normalizeMac`. -/
def normChar (c : Char) : Char :=
  let x := if lowerChar c = '-' then ':' else lowerChar c
  if x = '_' then ':' else x

end UniFi

namespace NokiaAPI

open PyModel

/-- Outcome of one HTTP POST from `requests`: a response with a status code
and body text, or one of the exception classes `reboot_device`
distinguishes (`Timeout`, `ConnectionError`, any other `RequestException`). -/
inductive ReqOutcome where
  | resp (status : Nat) (text : String)
  | timeout
  | connError
  | otherError

/-- `reboot_device` from `custom_components/nokia_fastmile/nokia_api.py`,
with the HTTP environment passed in as the outcome of each of the up to
three POSTs (primary `reboot_web_app.cgi`, secondary `command_web_app.cgi`,
tertiary `maintenance_web_app.cgi`).  `sessionOk` is the `_ensure_session`
result, which only drives a log line.  In the primary 200 branch the body
text is inspected (`encrypted=1` / `success` / `reboot`) but every such
sub-branch returns `True`, so the decision depends on the status alone.
An exception anywhere inside the `try` block jumps to the handlers:
`Timeout` and `ConnectionError` return `True` (presumed reboot), any other
`RequestException` returns `False`.  The second component counts the HTTP
requests actually issued. -/
def reboot_device (sessionOk : Bool) (r1 r2 r3 : ReqOutcome) : Bool × Nat :=
  match r1 with
  | .timeout => (true, 1)
  | .connError => (true, 1)
  | .otherError => (false, 1)
  | .resp s1 _ =>
    if s1 = 200 then (true, 1)
    else
      match r2 with
      | .timeout => (true, 2)
      | .connError => (true, 2)
      | .otherError => (false, 2)
      | .resp s2 _ =>
        if s2 = 200 ∨ s2 = 202 ∨ s2 = 204 then (true, 2)
        else
          match r3 with
          | .timeout => (true, 3)
          | .connError => (true, 3)
          | .otherError => (false, 3)
          | .resp s3 _ =>
            if s3 = 200 ∨ s3 = 202 ∨ s3 = 204 then (true, 3) else (false, 3)

/-- `get_device_info`: `None` when the snapshot is falsy, lacks
`device_info`, or has an empty `device_info` array; otherwise
`status["device_info"][0]`. -/
def get_device_info (status : Option Json) : Except PyErr (Option Json) :=
  match status with
  | none => .ok none
  | some s =>
    if pyTruthy s then do
      let hasKey ← pyIn (.str "device_info") s
      if hasKey then do
        let v ← pyGetItem s (.str "device_info")
        let n ← pyLen v
        if n = 0 then pure none
        else do
          let v2 ← pyGetItem s (.str "device_info")
          let x ← pyGetItem v2 (.num 0)
          pure (some x)
      else pure none
    else .ok none

/-- `get_cellular_stats`: builds a fresh dict with optional keys `5g`,
`lte` (the `stat` member of the first element of the respective stats
array, defaulting to an empty dict) and `wan_mode` (first element of
`WAN`), and returns that dict even when it stays empty. -/
def get_cellular_stats (status : Option Json) : Except PyErr (Option Json) :=
  match status with
  | none => .ok none
  | some s =>
    if pyTruthy s then do
      let result0 : List (String × Json) := []
      let has5 ← pyIn (.str "cell_5G_stats_cfg") s
      let result1 ←
        if has5 then do
          let v ← pyGetItem s (.str "cell_5G_stats_cfg")
          let n ← pyLen v
          if n > 0 then do
            let v2 ← pyGetItem s (.str "cell_5G_stats_cfg")
            let e ← pyGetItem v2 (.num 0)
            let st ← pyDictGet e "stat" (.obj [])
            pure (objSet result0 "5g" st)
          else pure result0
        else pure result0
      let hasL ← pyIn (.str "cell_LTE_stats_cfg") s
      let result2 ←
        if hasL then do
          let v ← pyGetItem s (.str "cell_LTE_stats_cfg")
          let n ← pyLen v
          if n > 0 then do
            let v2 ← pyGetItem s (.str "cell_LTE_stats_cfg")
            let e ← pyGetItem v2 (.num 0)
            let st ← pyDictGet e "stat" (.obj [])
            pure (objSet result1 "lte" st)
          else pure result1
        else pure result1
      let hasW ← pyIn (.str "WAN") s
      let result3 ←
        if hasW then do
          let v ← pyGetItem s (.str "WAN")
          let n ← pyLen v
          if n > 0 then do
            let v2 ← pyGetItem s (.str "WAN")
            let x ← pyGetItem v2 (.num 0)
            pure (objSet result2 "wan_mode" x)
          else pure result2
        else pure result2
      pure (some (.obj result3))
    else .ok none

/-- `get_wan_info`: a fresh dict with optional keys `connection`
(`wan_conns[0].ipConns[0]`) and `status` (`wan_ip_status[0]`), collapsed
to `None` when it stays empty (`return result if result else None`). -/
def get_wan_info (status : Option Json) : Except PyErr (Option Json) :=
  match status with
  | none => .ok none
  | some s =>
    if pyTruthy s then do
      let hasW ← pyIn (.str "wan_conns") s
      let result1 : List (String × Json) ←
        if hasW then do
          let v ← pyGetItem s (.str "wan_conns")
          let n ← pyLen v
          if n > 0 then do
            let v2 ← pyGetItem s (.str "wan_conns")
            let wan_conn ← pyGetItem v2 (.num 0)
            let hasIp ← pyIn (.str "ipConns") wan_conn
            if hasIp then do
              let ip ← pyGetItem wan_conn (.str "ipConns")
              let m ← pyLen ip
              if m > 0 then do
                let ip2 ← pyGetItem wan_conn (.str "ipConns")
                let c ← pyGetItem ip2 (.num 0)
                pure (objSet [] "connection" c)
              else pure []
            else pure []
          else pure []
        else pure []
      let hasS ← pyIn (.str "wan_ip_status") s
      let result2 ←
        if hasS then do
          let v ← pyGetItem s (.str "wan_ip_status")
          let n ← pyLen v
          if n > 0 then do
            let v2 ← pyGetItem s (.str "wan_ip_status")
            let x ← pyGetItem v2 (.num 0)
            pure (objSet result1 "status" x)
          else pure result1
        else pure result1
      if result2.isEmpty then pure none else pure (some (.obj result2))
    else .ok none

/-- `get_connected_devices`: starts from an empty list, extends it with the
whole `device_cfg` array when that key exists, and collapses an empty list
to `None` (`return devices if devices else None`). -/
def get_connected_devices (status : Option Json) : Except PyErr (Option Json) :=
  match status with
  | none => .ok none
  | some s =>
    if pyTruthy s then do
      let devices0 : List Json := []
      let hasKey ← pyIn (.str "device_cfg") s
      let devices1 ←
        if hasKey then do
          let v ← pyGetItem s (.str "device_cfg")
          let elems ← pyIterList v
          pure (devices0 ++ elems)
        else pure devices0
      if devices1.isEmpty then pure none else pure (some (.arr devices1))
    else .ok none

/-- First element of the array stored under `k`, if any (spec-side reading
of "the corresponding sub-array's first element"). -/
def firstOfKey (fields : List (String × Json)) (k : String) : Option Json :=
  match lookupKey fields k with
  | some (.arr (x :: _)) => some x
  | _ => none

/-- The value `get_device_info` actually produces on a well-formed
snapshot. -/
def spec_device_info (fields : List (String × Json)) : Option Json :=
  if fields.isEmpty then none else firstOfKey fields "device_info"

/-- The dict `get_cellular_stats` actually assembles on a well-formed
snapshot. -/
def spec_cellular_stats (fields : List (String × Json)) : Option Json :=
  if fields.isEmpty then none
  else
    let five :=
      match firstOfKey fields "cell_5G_stats_cfg" with
      | some (.obj m) => [("5g", objGetD m "stat" (.obj []))]
      | _ => []
    let lte :=
      match firstOfKey fields "cell_LTE_stats_cfg" with
      | some (.obj m) => [("lte", objGetD m "stat" (.obj []))]
      | _ => []
    let wan :=
      match firstOfKey fields "WAN" with
      | some x => [("wan_mode", x)]
      | none => []
    some (.obj (five ++ lte ++ wan))

/-- The value `get_wan_info` actually produces on a well-formed snapshot. -/
def spec_wan_info (fields : List (String × Json)) : Option Json :=
  if fields.isEmpty then none
  else
    let conn :=
      match firstOfKey fields "wan_conns" with
      | some (.obj m) =>
        match lookupKey m "ipConns" with
        | some (.arr (x :: _)) => [("connection", x)]
        | _ => []
      | _ => []
    let st :=
      match firstOfKey fields "wan_ip_status" with
      | some x => [("status", x)]
      | none => []
    let r := conn ++ st
    if r.isEmpty then none else some (.obj r)

/-- The value `get_connected_devices` actually produces on a well-formed
snapshot: the whole `device_cfg` array (not its first element). -/
def spec_connected_devices (fields : List (String × Json)) : Option Json :=
  if fields.isEmpty then none
  else
    match lookupKey fields "device_cfg" with
    | some (.arr []) => none
    | some (.arr xs) => some (.arr xs)
    | _ => none

/-- A key's value, when present, is an array. -/
def KeyIsArr (fields : List (String × Json)) (k : String) : Prop :=
  ∀ v, lookupKey fields k = some v → ∃ xs, v = Json.arr xs

/-- A key's value, when present, is an array of dicts. -/
def KeyIsArrOfObj (fields : List (String × Json)) (k : String) : Prop :=
  ∀ v, lookupKey fields k = some v →
    ∃ xs, v = Json.arr xs ∧ ∀ e ∈ xs, ∃ m, e = Json.obj m

/-- Well-formed status snapshot: the sub-arrays the accessors traverse have
the shapes the device documents (arrays; arrays of dicts where a member
`.get` is taken; `ipConns` again an array). -/
def WfSnapshot (fields : List (String × Json)) : Prop :=
  KeyIsArr fields "device_info" ∧
  KeyIsArrOfObj fields "cell_5G_stats_cfg" ∧
  KeyIsArrOfObj fields "cell_LTE_stats_cfg" ∧
  KeyIsArr fields "WAN" ∧
  (∀ v, lookupKey fields "wan_conns" = some v →
    ∃ xs, v = Json.arr xs ∧ ∀ e ∈ xs, ∃ m, e = Json.obj m ∧ KeyIsArr m "ipConns") ∧
  KeyIsArr fields "wan_ip_status" ∧
  KeyIsArr fields "device_cfg"

end NokiaAPI

/-- Concrete well-formed snapshot used to witness the accessor
characterization (LTE stats deliberately absent). -/
def c2Snapshot : List (String × PyModel.Json) :=
  [("device_info", .arr [.obj [("UpTime", .num 90061)]]),
   ("cell_5G_stats_cfg", .arr [.obj [("stat", .obj [("RSRP", .num (-90))])]]),
   ("WAN", .arr [.str "5G"]),
   ("wan_conns", .arr [.obj [("ipConns", .arr [.obj [("ip", .str "10.0.0.2")]])]]),
   ("wan_ip_status", .arr [.obj [("status", .str "up")]]),
   ("device_cfg", .arr [.obj [("name", .str "a")], .obj [("name", .str "b")]])]

namespace UniFi

open PyModel

/-- `dict(override)` applied to each member of `device.get("port_overrides", [])`:
every member must be a mapping (here: a JSON object), else `dict(...)`
raises `TypeError`. -/
def toDicts : List Json → Except PyErr (List (List (String × Json)))
  | [] => .ok []
  | .obj m :: rest => (toDicts rest).map (fun l => m :: l)
  | _ :: _ => .error .typeError

/-- The find-or-create/update loop of `set_port_poe_mode` (unifi_api.py
lines 183-200): the first override whose `port_idx` compares `==` to the
target gets `poe_mode` set on it in place; if none matches, a fresh entry
`{port_idx, native_networkconf_id, forward: "all"}` is appended and then
gets `poe_mode` set. -/
def applyPoeOverride (port_idx : Int) (default_network_id poe_mode : Json) :
    List (List (String × Json)) → List (List (String × Json))
  | [] =>
    [objSet [("port_idx", .num port_idx),
      ("native_networkconf_id", default_network_id),
      ("forward", .str "all")] "poe_mode" poe_mode]
  | m :: rest =>
    if pyEq (objGetD m "port_idx" .null) (.num port_idx) then
      objSet m "poe_mode" poe_mode :: rest
    else
      m :: applyPoeOverride port_idx default_network_id poe_mode rest

/-- `set_port_poe_mode` with its HTTP environment passed in: `fetch` is the
outcome of the `get_device_by_mac` re-fetch after the cache invalidation
(`.error` when the underlying `_request` raised), `putRes` the controller's
answer to the PUT.  The result carries the returned boolean together with
the JSON body sent by the PUT (`none` when the PUT step was never
reached).  Only the PUT is inside a `try`/`except UniFiAPIError`: a raise
during the fetch, a missing device, a falsy `_id`, or malformed overrides
propagate as errors. -/
def set_port_poe_mode (fetch : Except PyErr (Option Json))
    (putRes : Except PyErr Json) (port_idx : Int) (poe_mode : Json) :
    Except PyErr (Bool × Option Json) := do
  let dev ← fetch
  match dev with
  | none => .error (.apiError "Device not found")
  | some device => do
    let device_id ← pyDictGet device "_id" .null
    if pyTruthy device_id then do
      let default_network_id ← pyDictGet device "last_connection_network_id" (.str "")
      let rawOverrides ← pyDictGet device "port_overrides" (.arr [])
      let overrideJsons ← pyIterList rawOverrides
      let overrides ← toDicts overrideJsons
      let newOverrides := applyPoeOverride port_idx default_network_id poe_mode overrides
      let body := Json.obj [("port_overrides", .arr (newOverrides.map Json.obj))]
      match putRes with
      | .ok _ => .ok (true, some body)
      | .error (.apiError _) => .ok (false, some body)
      | .error e => .error e
    else .error (.apiError "Device ID not found")

/-- Observable actions of `restart_poe_port`: the power-cycle command POST,
a `set_port_poe_mode` invocation, and the fixed `asyncio.sleep`. -/
inductive PoeAction where
  | powerCycle
  | setPoe (mode : Json)
  | sleepFor (d : ℚ)

/-- The `for port in port_table` scan of `restart_poe_port` (lines 263-268):
`current_mode` starts at `"auto"` and the first port whose `port_idx`
matches contributes its `poe_mode` (default `"auto"`); members must be
dicts for `.get`. -/
def findCurrentMode : List Json → Int → Except PyErr Json
  | [], _ => .ok (.str "auto")
  | .obj m :: rest, idx =>
    if pyEq (objGetD m "port_idx" .null) (.num idx) then
      .ok (objGetD m "poe_mode" (.str "auto"))
    else findCurrentMode rest idx
  | _ :: _, _ => .error .attrError

/-- `restart_poe_port` with its environment passed in: `cycleRes` is the
`cmd/devmgr` power-cycle response (`.error (.apiError _)` when `_request`
raised `UniFiAPIError`), `fetch` the device re-fetch in the fallback, and
`offRes`/`onRes` the outcomes of the two `set_port_poe_mode` steps (which
may themselves raise).  Returns the boolean together with the list of
actions performed.  Only `UniFiAPIError` from the power-cycle request is
caught; everything else propagates. -/
def restart_poe_port (cycleRes : Except PyErr Json)
    (fetch : Except PyErr (Option Json)) (offRes onRes : Except PyErr Bool)
    (delay : ℚ) (port_idx : Int) : Except PyErr (Bool × List PoeAction) :=
  let fallback : Except PyErr (Bool × List PoeAction) := do
    let dev ← fetch
    match dev with
    | none => .error (.apiError "Device not found")
    | some device => do
      let port_table ← pyDictGet device "port_table" (.arr [])
      let ports ← pyIterList port_table
      let current_mode ← findCurrentMode ports port_idx
      let ok1 ← offRes
      if ok1 then do
        let ok2 ← onRes
        if ok2 then
          .ok (true, [.powerCycle, .setPoe (.str "off"), .sleepFor delay,
            .setPoe current_mode])
        else
          .ok (false, [.powerCycle, .setPoe (.str "off"), .sleepFor delay,
            .setPoe current_mode])
      else .ok (false, [.powerCycle, .setPoe (.str "off")])
  match cycleRes with
  | .ok result => do
    let meta ← pyDictGet result "meta" (.obj [])
    let rc ← pyDictGet meta "rc" .null
    if pyEq rc (.str "ok") then .ok (true, [.powerCycle])
    else fallback
  | .error (.apiError _) => fallback
  | .error e => .error e

/-- The `port_idx` of an override entry as the code reads it
(`override.get("port_idx")`, i.e. `None` when absent). -/
def overrideIdx (m : List (String × Json)) : Json :=
  objGetD m "port_idx" .null

/-- At most one override entry per `port_idx`: any two entries have
`==`-distinct `port_idx` values. -/
def DistinctPortIdx (l : List (List (String × Json))) : Prop :=
  l.Pairwise fun a b => pyEq (overrideIdx a) (overrideIdx b) = false

end UniFi

/-- Concrete device for the C3 witness: one pre-existing override on port 1,
none on port 3. -/
def c3Device : List (String × PyModel.Json) :=
  [("_id", .str "abc123"),
   ("last_connection_network_id", .str "net1"),
   ("port_overrides", .arr [.obj [("port_idx", .num 1), ("poe_mode", .str "auto")]])]

namespace UniFi

open PyModel

/-- The cache-population loop of `get_devices` (unifi_api.py lines
116-119): each device's `mac` field (default `""`) is lowercased — with no
separator replacement — and devices with a non-empty lowered mac are
stored in the cache under that key (`self._devices_cache[mac] = device`).
A non-string `mac` makes `.lower()` raise `AttributeError`. -/
def cacheDevices : List Json → List (String × Json) → Except PyErr (List (String × Json))
  | [], cache => .ok cache
  | d :: rest, cache => do
    let macJ ← pyDictGet d "mac" (.str "")
    match macJ with
    | .str s =>
      let mac := pyLower s
      if mac ≠ "" then cacheDevices rest (objSet cache mac d)
      else cacheDevices rest cache
    | _ => .error .attrError

/-- `get_device_by_mac` (lines 128-138): the query is lowercased with
`-`/`_` replaced by `:`; the cache is consulted first, and on a miss
`get_devices` repopulates the cache and the normalized key is looked up
there.  Returns the found device together with the resulting cache. -/
def get_device_by_mac (cache : List (String × Json)) (devices : List Json)
    (mac : String) : Except PyErr (Option Json × List (String × Json)) :=
  let m := normalizeMac mac
  match lookupKey cache m with
  | some d => .ok (some d, cache)
  | none => do
    let cache2 ← cacheDevices devices cache
    .ok (lookupKey cache2 m, cache2)

/-- Controller device lists as `get_devices` expects them: dict entries
whose `mac` field (when present) is a string. -/
def DevWf (devices : List Json) : Prop :=
  ∀ d ∈ devices, ∃ dm, d = Json.obj dm ∧
    ∃ s, (lookupKey dm "mac").getD (.str "") = .str s

/-- Some device of the list is cached under key `k`. -/
def MacMatch (devices : List Json) (k : String) : Prop :=
  ∃ dm s, Json.obj dm ∈ devices ∧
    (lookupKey dm "mac").getD (.str "") = .str s ∧ pyLower s = k ∧ pyLower s ≠ ""

/-- Device `d` is a member cached under key `k`. -/
def DevHasKey (devices : List Json) (k : String) (d : Json) : Prop :=
  ∃ dm s, d = Json.obj dm ∧ Json.obj dm ∈ devices ∧
    (lookupKey dm "mac").getD (.str "") = .str s ∧ pyLower s = k ∧ pyLower s ≠ ""

end UniFi

namespace NokiaAPI

open PyModel

/-- Base64url alphabet value of a character (`A-Z a-z 0-9 - _`), `none`
outside the alphabet. -/
def b64Val (c : Char) : Option Nat :=
  if 65 ≤ c.toNat ∧ c.toNat ≤ 90 then some (c.toNat - 65)
  else if 97 ≤ c.toNat ∧ c.toNat ≤ 122 then some (c.toNat - 71)
  else if 48 ≤ c.toNat ∧ c.toNat ≤ 57 then some (c.toNat + 4)
  else if c = '-' then some 62
  else if c = '_' then some 63
  else none

/-- Strict base64url decoding by 4-character groups, with `=` padding only
at the very end (the format the device emits and `urlsafe_b64decode`
accepts for it); any violation decodes to `none`. -/
def b64Chunks : List Char → Option (List Nat)
  | [] => some []
  | c1 :: c2 :: c3 :: c4 :: rest =>
    match b64Val c1, b64Val c2 with
    | some v1, some v2 =>
      if c3 = '=' then
        if c4 = '=' ∧ rest = [] then some [v1 * 4 + v2 / 16] else none
      else
        match b64Val c3 with
        | some v3 =>
          if c4 = '=' then
            if rest = [] then some [v1 * 4 + v2 / 16, v2 % 16 * 16 + v3 / 4]
            else none
          else
            match b64Val c4 with
            | some v4 =>
              (b64Chunks rest).map fun bs =>
                (v1 * 4 + v2 / 16) :: (v2 % 16 * 16 + v3 / 4) ::
                  (v3 % 4 * 64 + v4) :: bs
            | none => none
        | none => none
    | _, _ => none
  | _ => none

/-- `base64.urlsafe_b64decode` on the padded input, yielding bytes. -/
def b64urlDecode (s : String) : Option (List Nat) :=
  b64Chunks s.data

/-- The padding step of `_decrypt_response`:
`ct + '=' * (4 - len(ct) % 4) if len(ct) % 4 else ct`. -/
def padB64 (s : String) : String :=
  if s.length % 4 ≠ 0 then s ++ String.mk (List.replicate (4 - s.length % 4) '=')
  else s

/-- `_decrypt_response` (nokia_api.py lines 76-104) with the AES-256-GCM
primitive and `json.loads` abstracted as function parameters: pad and
base64url-decode `ct` and `ck`, use the FIRST 32 BYTES OF THE DECODED `ck`
as the key (`self._shared_secret`, passed here as `sharedSecret`, is in
scope but never read), the leading 12 bytes of the decoded `ct` blob as
the IV, the trailing 16 bytes as the GCM tag and the middle as the
ciphertext; the surrounding `try`/`except` turns every failure into
`None`. -/
def decrypt_response (sharedSecret : List Nat)
    (aesGcmDecrypt : List Nat → List Nat → List Nat → List Nat → Option (List Nat))
    (jsonLoads : List Nat → Option Json) (ct ck : String) : Option Json :=
  match b64urlDecode (padB64 ct), b64urlDecode (padB64 ck) with
  | some encrypted, some keyBlob =>
    let key := keyBlob.take 32
    let iv := encrypted.take 12
    let tag := encrypted.drop (encrypted.length - 16)
    let ciphertext := (encrypted.drop 12).take (encrypted.length - 16 - 12)
    match aesGcmDecrypt key iv tag ciphertext with
    | some plaintext => jsonLoads plaintext
    | none => none
  | _, _ => none

/-- The stop set of the regex `ct=([^&\s]+)`: `&` and Python whitespace. -/
def ctStops : List Char := ['&', ' ', '\t', '\n', '\r', '\x0b', '\x0c']

/-- The stop set of the regex `ck=([^&\s.]+)`: additionally `.`. -/
def ckStops : List Char := ['&', ' ', '\t', '\n', '\r', '\x0b', '\x0c', '.']

/-- `re.search(key + "(stop-free run)+")`: at each position in turn, match
the literal key followed by a non-empty run of non-stop characters; the
first position where both succeed yields that run. -/
def scanFor (key stops : List Char) : List Char → Option String
  | [] => none
  | c :: rest =>
    if key.isPrefixOf (c :: rest) ∧
        ((c :: rest).drop key.length).takeWhile (fun ch => !stops.contains ch) ≠ [] then
      some (String.mk (((c :: rest).drop key.length).takeWhile
        fun ch => !stops.contains ch))
    else scanFor key stops rest

/-- `_parse_encrypted_response` (lines 106-117): require the `encrypted=1`
tag, extract `ct` and `ck` by the two regex searches, and decrypt; a
missing tag or failed extraction yields `None`. -/
def parse_encrypted_response (sharedSecret : List Nat)
    (aesGcmDecrypt : List Nat → List Nat → List Nat → List Nat → Option (List Nat))
    (jsonLoads : List Nat → Option Json) (response_text : String) : Option Json :=
  if containsSub "encrypted=1".data response_text.data then
    match scanFor "ct=".data ctStops response_text.data,
        scanFor "ck=".data ckStops response_text.data with
    | some ct, some ck => decrypt_response sharedSecret aesGcmDecrypt jsonLoads ct ck
    | _, _ => none
  else none

/-- Test vector: 38 `'A'`s decode (after `==` padding) to 28 zero bytes. -/
def c7ct : String := String.mk (List.replicate 38 'A')

/-- Test vector: 43 `'A'`s decode (after `=` padding) to 32 zero bytes. -/
def c7ck : String := String.mk (List.replicate 43 'A')

/-- Characters of the base64url alphabet (those `b64Val` accepts). -/
def B64Alpha (c : Char) : Prop := b64Val c ≠ none

end NokiaAPI

namespace PyModel

theorem toNat_ofNat_of_lt {n : Nat} (h : n < 55296) : (Char.ofNat n).toNat = n := by
  have hv : n.isValidChar := Or.inl h
  simp [Char.ofNat, hv, Char.ofNatAux, Char.toNat, UInt32.toNat, UInt32.ofNat']

theorem lowerChar_fix_of_not_upper {c : Char}
    (h : ¬(65 ≤ c.toNat ∧ c.toNat ≤ 90)) : lowerChar c = c := by
  simp [lowerChar, h]

end PyModel

namespace UniFi

open PyModel

theorem normalizeMac_eq_map (s : String) :
    normalizeMac s = ⟨s.data.map normChar⟩ := by
  show (⟨(((s.data.map lowerChar).map fun c => if c = '-' then ':' else c).map
      fun c => if c = '_' then ':' else c)⟩ : String) = ⟨s.data.map normChar⟩
  rw [List.map_map, List.map_map]
  rfl

theorem normChar_colon : normChar ':' = ':' := by decide

theorem normChar_idem (c : Char) : normChar (normChar c) = normChar c := by
  by_cases h : 65 ≤ c.toNat ∧ c.toNat ≤ 90
  · -- uppercase letter: normChar c is the lowered letter, itself fixed
    have ht : (Char.ofNat (c.toNat + 32)).toNat = c.toNat + 32 :=
      toNat_ofNat_of_lt (by omega)
    have hl : lowerChar c = Char.ofNat (c.toNat + 32) := by simp [lowerChar, h]
    have hne1 : lowerChar c ≠ '-' := by
      rw [hl]
      intro he
      have h2 := congrArg Char.toNat he
      have h3 : ('-').toNat = 45 := rfl
      rw [ht, h3] at h2
      omega
    have hne2 : lowerChar c ≠ '_' := by
      rw [hl]
      intro he
      have h2 := congrArg Char.toNat he
      have h3 : ('_').toNat = 95 := rfl
      rw [ht, h3] at h2
      omega
    have hn : normChar c = lowerChar c := by
      unfold normChar
      simp [hne1, hne2]
    have hfix : lowerChar (lowerChar c) = lowerChar c := by
      rw [hl]
      apply lowerChar_fix_of_not_upper
      rw [ht]
      omega
    rw [hn]
    unfold normChar
    simp [hfix, hne1, hne2]
  · have hx : lowerChar c = c := lowerChar_fix_of_not_upper h
    by_cases hd : c = '-'
    · have hn : normChar c = ':' := by
        unfold normChar
        rw [hx, hd]
        simp
      rw [hn, normChar_colon]
    · by_cases hu : c = '_'
      · have hn : normChar c = ':' := by
          unfold normChar
          rw [hx, hu]
          simp
        rw [hn, normChar_colon]
      · have hn : normChar c = c := by
          unfold normChar
          rw [hx]
          simp [hd, hu]
        rw [hn, hn]

theorem mapNormChar_idem (l : List Char) :
    (l.map normChar).map normChar = l.map normChar := by
  induction l with
  | nil => rfl
  | cons c cs ih => simp [normChar_idem c, ih]

theorem normalizeMac_idem (s : String) :
    normalizeMac (normalizeMac s) = normalizeMac s := by
  rw [normalizeMac_eq_map s, normalizeMac_eq_map]
  exact congrArg String.mk (mapNormChar_idem s.data)

end UniFi

set_option maxHeartbeats 1600000 in
/-- C9: MAC normalization (lowercase, `-`/`_` → `:`) is idempotent, and the
two spelled-out examples normalize to `"aa:bb:cc:dd:ee:ff"`. -/
theorem C9_mac_normalization_idempotent :
    (∀ s : String, UniFi.normalizeMac (UniFi.normalizeMac s) = UniFi.normalizeMac s) ∧
    UniFi.normalizeMac "AA-BB-CC-DD-EE-FF" = "aa:bb:cc:dd:ee:ff" ∧
    UniFi.normalizeMac "aa:bb:cc:dd:ee:ff" = "aa:bb:cc:dd:ee:ff" :=
  ⟨UniFi.normalizeMac_idem, by decide, by decide⟩

/-- C8 counterexample: the claim says `format_uptime(0) = "0d 0h 0m"`, but the
sensor variant returns `"Unknown"` for a zero uptime (Python `if not seconds`)
and the monitor variant returns `"0d 0h 0m 0s"`; neither equals `"0d 0h 0m"`. -/
theorem C8_format_uptime_zero_counterexample :
    NokiaSensor.format_uptime 0 = "Unknown" ∧
    NokiaMonitor.format_uptime 0 = "0d 0h 0m 0s" ∧
    NokiaSensor.format_uptime 0 ≠ "0d 0h 0m" ∧
    NokiaMonitor.format_uptime 0 ≠ "0d 0h 0m" :=
  ⟨by decide, by decide, by decide, by decide⟩

/-- C8 amended: the sensor variant maps 0 to `"Unknown"` and 90061 to
`"1d 1h 1m"` (minute-truncated); the monitor variant keeps seconds, mapping
0 to `"0d 0h 0m 0s"` and 90061 to `"1d 1h 1m 1s"`. -/
theorem C8_format_uptime_values :
    NokiaSensor.format_uptime 0 = "Unknown" ∧
    NokiaSensor.format_uptime 90061 = "1d 1h 1m" ∧
    NokiaMonitor.format_uptime 0 = "0d 0h 0m 0s" ∧
    NokiaMonitor.format_uptime 90061 = "1d 1h 1m 1s" :=
  ⟨by decide, by decide, by decide, by decide⟩

set_option maxHeartbeats 400000 in
/-- C1: `reboot_device` stops at the first apparent success (primary 200
answers immediately); a non-200 primary status falls through to the
secondary endpoint, which succeeds on 200/202/204; and a timeout or
connection error at any of the three steps yields `True` with no further
endpoint attempted. -/
theorem C1_reboot_fallback_behaviour :
    (∀ (sOk : Bool) (t1 : String) (r2 r3 : NokiaAPI.ReqOutcome),
      NokiaAPI.reboot_device sOk (.resp 200 t1) r2 r3 = (true, 1)) ∧
    (∀ (sOk : Bool) (s1 : Nat) (t1 t2 : String) (r3 : NokiaAPI.ReqOutcome) (s2 : Nat),
      s1 ≠ 200 → s2 = 200 ∨ s2 = 202 ∨ s2 = 204 →
      NokiaAPI.reboot_device sOk (.resp s1 t1) (.resp s2 t2) r3 = (true, 2)) ∧
    (∀ (sOk : Bool) (e r2 r3 : NokiaAPI.ReqOutcome),
      e = NokiaAPI.ReqOutcome.timeout ∨ e = NokiaAPI.ReqOutcome.connError →
      NokiaAPI.reboot_device sOk e r2 r3 = (true, 1)) ∧
    (∀ (sOk : Bool) (s1 : Nat) (t1 : String) (e r3 : NokiaAPI.ReqOutcome),
      s1 ≠ 200 →
      e = NokiaAPI.ReqOutcome.timeout ∨ e = NokiaAPI.ReqOutcome.connError →
      NokiaAPI.reboot_device sOk (.resp s1 t1) e r3 = (true, 2)) ∧
    (∀ (sOk : Bool) (s1 s2 : Nat) (t1 t2 : String) (e : NokiaAPI.ReqOutcome),
      s1 ≠ 200 → ¬(s2 = 200 ∨ s2 = 202 ∨ s2 = 204) →
      e = NokiaAPI.ReqOutcome.timeout ∨ e = NokiaAPI.ReqOutcome.connError →
      NokiaAPI.reboot_device sOk (.resp s1 t1) (.resp s2 t2) e = (true, 3)) := by
  refine ⟨?_, ?_, ?_, ?_, ?_⟩
  · intro sOk t1 r2 r3
    simp [NokiaAPI.reboot_device]
  · intro sOk s1 t1 t2 r3 s2 h1 h2
    simp [NokiaAPI.reboot_device, h1, h2]
  · rintro sOk e r2 r3 (rfl | rfl) <;> rfl
  · rintro sOk s1 t1 e r3 h1 (rfl | rfl) <;> simp [NokiaAPI.reboot_device, h1]
  · rintro sOk s1 s2 t1 t2 e h1 h2 (rfl | rfl) <;>
      simp [NokiaAPI.reboot_device, h1, h2]

/-- C1 witness: the spec's two mocked traces, `[404, 202]` reporting success
after two attempts and `[ConnectionError]` reporting presumed success after
one attempt. -/
theorem C1_reboot_fallback_behaviour_witness :
    NokiaAPI.reboot_device true (.resp 404 "") (.resp 202 "") (.resp 500 "") = (true, 2) ∧
    NokiaAPI.reboot_device true .connError (.resp 500 "") (.resp 500 "") = (true, 1) :=
  ⟨C1_reboot_fallback_behaviour.2.1 true 404 "" "" (.resp 500 "") 202
      (by decide) (Or.inr (Or.inl rfl)),
    C1_reboot_fallback_behaviour.2.2.1 true .connError (.resp 500 "") (.resp 500 "")
      (Or.inr rfl)⟩

/-- C2 counterexample: on the well-formed snapshot
`obj [device_cfg := [str "a", str "b"]]` the accessor
`get_connected_devices` returns the whole two-element `device_cfg` array,
which is not that array's first element (and not `None`), so "each accessor
returns exactly the corresponding sub-array's first element or None" fails. -/
theorem C2_connected_devices_counterexample :
    NokiaAPI.get_connected_devices
        (some (.obj [("device_cfg", .arr [.str "a", .str "b"])])) =
      .ok (some (.arr [.str "a", .str "b"])) ∧
    PyModel.Json.arr [.str "a", .str "b"] ≠ .str "a" :=
  ⟨rfl, fun h => PyModel.Json.noConfusion h⟩

namespace PyModel

theorem except_ok_bind {e a b : Type} (x : a) (f : a → Except e b) :
    (Except.ok x >>= f) = f x := rfl

theorem except_pure_eq {e a : Type} (x : a) : (pure x : Except e a) = Except.ok x := rfl

theorem except_map_ok {e a b : Type} (g : a → b) (x : a) :
    (g <$> (Except.ok x : Except e a)) = Except.ok (g x) := rfl

theorem pyIn_obj_str (l : List (String × Json)) (k : String) :
    pyIn (.str k) (.obj l) = .ok (lookupKey l k).isSome := by
  induction l with
  | nil => rfl
  | cons p rest ih =>
    obtain ⟨k0, v0⟩ := p
    by_cases h : k0 = k
    · subst h
      simp [pyIn, lookupKey, pyEq]
    · have ih2 : (rest.any fun q => pyEq (.str q.1) (.str k)) = (lookupKey rest k).isSome := by
        simpa [pyIn] using ih
      have hbe : (k0 == k) = false := beq_eq_false_iff_ne.mpr h
      simp [pyIn, lookupKey, pyEq, h, hbe] at *
      exact ih2

theorem pyGetItem_arr_zero (x : Json) (rest : List Json) :
    pyGetItem (.arr (x :: rest)) (.num 0) = .ok x := by
  simp [pyGetItem]

end PyModel

namespace NokiaAPI

open PyModel

theorem keyCases_arr (fields : List (String × Json)) (k : String)
    (h : KeyIsArr fields k) :
    lookupKey fields k = none ∨ lookupKey fields k = some (.arr []) ∨
    ∃ x rest, lookupKey fields k = some (.arr (x :: rest)) := by
  cases hk : lookupKey fields k with
  | none => exact Or.inl rfl
  | some v =>
    obtain ⟨xs, rfl⟩ := h v hk
    cases xs with
    | nil => exact Or.inr (Or.inl rfl)
    | cons x r => exact Or.inr (Or.inr ⟨x, r, rfl⟩)

theorem keyCases_arrObj (fields : List (String × Json)) (k : String)
    (h : KeyIsArrOfObj fields k) :
    lookupKey fields k = none ∨ lookupKey fields k = some (.arr []) ∨
    ∃ m rest, lookupKey fields k = some (.arr (.obj m :: rest)) := by
  cases hk : lookupKey fields k with
  | none => exact Or.inl rfl
  | some v =>
    obtain ⟨xs, rfl, hobj⟩ := h v hk
    cases xs with
    | nil => exact Or.inr (Or.inl rfl)
    | cons e r =>
      obtain ⟨m, rfl⟩ := hobj e (by simp)
      exact Or.inr (Or.inr ⟨m, r, rfl⟩)

theorem get_device_info_eq (fields : List (String × Json))
    (h : KeyIsArr fields "device_info") :
    get_device_info (some (.obj fields)) = .ok (spec_device_info fields) := by
  by_cases hf : fields.isEmpty
  · simp [get_device_info, spec_device_info, pyTruthy, hf]
  · rcases keyCases_arr fields "device_info" h with hk | hk | ⟨x, rest, hk⟩ <;>
      simp [get_device_info, spec_device_info, pyTruthy, hf, pyIn_obj_str, hk,
        pyGetItem, pyLen, pyGetItem_arr_zero, firstOfKey,
        except_ok_bind, except_map_ok, except_pure_eq]

set_option maxHeartbeats 3000000 in
theorem get_cellular_stats_eq (fields : List (String × Json))
    (h5 : KeyIsArrOfObj fields "cell_5G_stats_cfg")
    (hL : KeyIsArrOfObj fields "cell_LTE_stats_cfg")
    (hW : KeyIsArr fields "WAN") :
    get_cellular_stats (some (.obj fields)) = .ok (spec_cellular_stats fields) := by
  by_cases hf : fields.isEmpty
  · simp [get_cellular_stats, spec_cellular_stats, pyTruthy, hf]
  · rcases keyCases_arrObj fields "cell_5G_stats_cfg" h5 with hk5 | hk5 | ⟨m5, r5, hk5⟩ <;>
      rcases keyCases_arrObj fields "cell_LTE_stats_cfg" hL with hkL | hkL | ⟨mL, rL, hkL⟩ <;>
      rcases keyCases_arr fields "WAN" hW with hkW | hkW | ⟨w, rW, hkW⟩ <;>
      simp [get_cellular_stats, spec_cellular_stats, pyTruthy, hf, pyIn_obj_str,
        hk5, hkL, hkW, pyGetItem, pyLen, pyGetItem_arr_zero, pyDictGet, objGetD,
        objSet, firstOfKey, except_ok_bind, except_map_ok, except_pure_eq]

set_option maxHeartbeats 3000000 in
theorem get_wan_info_eq (fields : List (String × Json))
    (hC : ∀ v, lookupKey fields "wan_conns" = some v →
      ∃ xs, v = Json.arr xs ∧ ∀ e ∈ xs, ∃ m, e = Json.obj m ∧ KeyIsArr m "ipConns")
    (hS : KeyIsArr fields "wan_ip_status") :
    get_wan_info (some (.obj fields)) = .ok (spec_wan_info fields) := by
  by_cases hf : fields.isEmpty
  · simp [get_wan_info, spec_wan_info, pyTruthy, hf]
  · have hCases : lookupKey fields "wan_conns" = none ∨
        lookupKey fields "wan_conns" = some (.arr []) ∨
        ∃ m rest, lookupKey fields "wan_conns" = some (.arr (.obj m :: rest)) ∧
          KeyIsArr m "ipConns" := by
      cases hk : lookupKey fields "wan_conns" with
      | none => exact Or.inl rfl
      | some v =>
        obtain ⟨xs, rfl, hobj⟩ := hC v hk
        cases xs with
        | nil => exact Or.inr (Or.inl rfl)
        | cons e r =>
          obtain ⟨m, rfl, hm⟩ := hobj e (by simp)
          exact Or.inr (Or.inr ⟨m, r, rfl, hm⟩)
    rcases hCases with hkC | hkC | ⟨m, restC, hkC, hmIp⟩
    · rcases keyCases_arr fields "wan_ip_status" hS with hkS | hkS | ⟨y, restS, hkS⟩ <;>
        simp [get_wan_info, spec_wan_info, pyTruthy, hf, pyIn_obj_str, hkC, hkS,
          pyGetItem, pyLen, pyGetItem_arr_zero, objSet, firstOfKey,
          except_ok_bind, except_map_ok, except_pure_eq]
    · rcases keyCases_arr fields "wan_ip_status" hS with hkS | hkS | ⟨y, restS, hkS⟩ <;>
        simp [get_wan_info, spec_wan_info, pyTruthy, hf, pyIn_obj_str, hkC, hkS,
          pyGetItem, pyLen, pyGetItem_arr_zero, objSet, firstOfKey,
          except_ok_bind, except_map_ok, except_pure_eq]
    · rcases keyCases_arr m "ipConns" hmIp with hkI | hkI | ⟨x, restI, hkI⟩ <;>
        rcases keyCases_arr fields "wan_ip_status" hS with hkS | hkS | ⟨y, restS, hkS⟩ <;>
        simp [get_wan_info, spec_wan_info, pyTruthy, hf, pyIn_obj_str, hkC, hkI, hkS,
          pyGetItem, pyLen, pyGetItem_arr_zero, objSet, firstOfKey,
          except_ok_bind, except_map_ok, except_pure_eq]

theorem get_connected_devices_eq (fields : List (String × Json))
    (h : KeyIsArr fields "device_cfg") :
    get_connected_devices (some (.obj fields)) = .ok (spec_connected_devices fields) := by
  by_cases hf : fields.isEmpty
  · simp [get_connected_devices, spec_connected_devices, pyTruthy, hf]
  · rcases keyCases_arr fields "device_cfg" h with hk | hk | ⟨x, rest, hk⟩ <;>
      simp [get_connected_devices, spec_connected_devices, pyTruthy, hf, pyIn_obj_str,
        hk, pyGetItem, pyIterList, except_ok_bind, except_map_ok, except_pure_eq]

end NokiaAPI

/-- C2 amended: on `None` every accessor yields `None` and on every
well-formed snapshot no accessor raises; `get_device_info` returns exactly
`device_info`'s first element (`None` when absent/empty), while
`get_wan_info` and `get_cellular_stats` assemble fresh dicts out of the
first elements of their sub-arrays (`get_wan_info` collapsing an empty dict
to `None`, `get_cellular_stats` returning even an empty dict) and
`get_connected_devices` returns the whole `device_cfg` array (`None` when
absent/empty) — not, in general, a first element. -/
theorem C2_accessors_characterization :
    (NokiaAPI.get_device_info none = .ok none ∧
     NokiaAPI.get_wan_info none = .ok none ∧
     NokiaAPI.get_cellular_stats none = .ok none ∧
     NokiaAPI.get_connected_devices none = .ok none) ∧
    ∀ fields : List (String × PyModel.Json), NokiaAPI.WfSnapshot fields →
      NokiaAPI.get_device_info (some (.obj fields)) =
        .ok (NokiaAPI.spec_device_info fields) ∧
      NokiaAPI.get_wan_info (some (.obj fields)) =
        .ok (NokiaAPI.spec_wan_info fields) ∧
      NokiaAPI.get_cellular_stats (some (.obj fields)) =
        .ok (NokiaAPI.spec_cellular_stats fields) ∧
      NokiaAPI.get_connected_devices (some (.obj fields)) =
        .ok (NokiaAPI.spec_connected_devices fields) := by
  refine ⟨⟨rfl, rfl, rfl, rfl⟩, ?_⟩
  intro fields hwf
  obtain ⟨h1, h2, h3, h4, h5, h6, h7⟩ := hwf
  exact ⟨NokiaAPI.get_device_info_eq fields h1,
    NokiaAPI.get_wan_info_eq fields h5 h6,
    NokiaAPI.get_cellular_stats_eq fields h2 h3 h4,
    NokiaAPI.get_connected_devices_eq fields h7⟩

/-- C2 witness: the characterization applied to a concrete well-formed
snapshot, with the outputs evaluated. -/
theorem C2_accessors_characterization_witness :
    NokiaAPI.WfSnapshot c2Snapshot ∧
    NokiaAPI.get_device_info (some (.obj c2Snapshot)) =
      .ok (some (.obj [("UpTime", .num 90061)])) ∧
    NokiaAPI.get_connected_devices (some (.obj c2Snapshot)) =
      .ok (some (.arr [.obj [("name", .str "a")], .obj [("name", .str "b")]])) := by
  have hwf : NokiaAPI.WfSnapshot c2Snapshot := by
    refine ⟨?_, ?_, ?_, ?_, ?_, ?_, ?_⟩
    · intro v hv
      simp [c2Snapshot, PyModel.lookupKey] at hv
      exact ⟨_, hv.symm⟩
    · intro v hv
      simp [c2Snapshot, PyModel.lookupKey] at hv
      refine ⟨_, hv.symm, ?_⟩
      intro e he
      simp at he
      exact ⟨_, he⟩
    · intro v hv
      simp [c2Snapshot, PyModel.lookupKey] at hv
    · intro v hv
      simp [c2Snapshot, PyModel.lookupKey] at hv
      exact ⟨_, hv.symm⟩
    · intro v hv
      simp [c2Snapshot, PyModel.lookupKey] at hv
      refine ⟨_, hv.symm, ?_⟩
      intro e he
      simp at he
      refine ⟨_, he, ?_⟩
      intro w hw
      simp [PyModel.lookupKey] at hw
      exact ⟨_, hw.symm⟩
    · intro v hv
      simp [c2Snapshot, PyModel.lookupKey] at hv
      exact ⟨_, hv.symm⟩
    · intro v hv
      simp [c2Snapshot, PyModel.lookupKey] at hv
      exact ⟨_, hv.symm⟩
  have h := C2_accessors_characterization.2 c2Snapshot hwf
  exact ⟨hwf, h.1, h.2.2.2⟩

namespace UniFi

open PyModel

theorem lookupKey_objSet_ne (l : List (String × Json)) (k : String) (v : Json)
    (k' : String) (h : k' ≠ k) : lookupKey (objSet l k v) k' = lookupKey l k' := by
  induction l with
  | nil =>
    simp [objSet, lookupKey]
    exact Ne.symm h
  | cons p rest ih =>
    obtain ⟨k0, v0⟩ := p
    by_cases h0 : k0 = k
    · subst h0
      simp [objSet, lookupKey, Ne.symm h]
    · simp [objSet, lookupKey, h0]
      by_cases h1 : k0 = k'
      · simp [h1, lookupKey]
      · simp [h1, lookupKey, ih]

theorem overrideIdx_objSet_poe (m : List (String × Json)) (mode : Json) :
    overrideIdx (objSet m "poe_mode" mode) = overrideIdx m := by
  unfold overrideIdx objGetD
  rw [lookupKey_objSet_ne]
  decide

theorem applyPoeOverride_nil_eval (p : Int) (dnid mode : Json) :
    applyPoeOverride p dnid mode [] =
      [[("port_idx", .num p), ("native_networkconf_id", dnid),
        ("forward", .str "all"), ("poe_mode", mode)]] := by
  simp [applyPoeOverride, objSet]

theorem applyPoeOverride_append (p : Int) (dnid mode : Json)
    (l : List (List (String × Json)))
    (h : ∀ m ∈ l, pyEq (overrideIdx m) (.num p) = false) :
    applyPoeOverride p dnid mode l =
      l ++ [[("port_idx", .num p), ("native_networkconf_id", dnid),
        ("forward", .str "all"), ("poe_mode", mode)]] := by
  induction l with
  | nil => exact applyPoeOverride_nil_eval p dnid mode
  | cons m rest ih =>
    have hm := h m (List.mem_cons_self m rest)
    unfold overrideIdx at hm
    simp [applyPoeOverride, hm]
    exact ih fun x hx => h x (List.mem_cons_of_mem _ hx)

theorem applyPoeOverride_mem_idx (p : Int) (dnid mode : Json)
    (l : List (List (String × Json))) :
    ∀ b ∈ applyPoeOverride p dnid mode l,
      (∃ a ∈ l, overrideIdx b = overrideIdx a) ∨ overrideIdx b = .num p := by
  induction l with
  | nil =>
    intro b hb
    simp [applyPoeOverride_nil_eval] at hb
    subst hb
    right
    simp [overrideIdx, objGetD, lookupKey]
  | cons m rest ih =>
    intro b hb
    by_cases hm : pyEq (objGetD m "port_idx" .null) (.num p) = true
    · simp [applyPoeOverride, hm] at hb
      rcases hb with rfl | hb
      · exact Or.inl ⟨m, List.mem_cons_self m rest, overrideIdx_objSet_poe m mode⟩
      · exact Or.inl ⟨b, List.mem_cons_of_mem _ hb, rfl⟩
    · rw [Bool.not_eq_true] at hm
      simp [applyPoeOverride, hm] at hb
      rcases hb with rfl | hb
      · exact Or.inl ⟨b, List.mem_cons_self b rest, rfl⟩
      · rcases ih b hb with ⟨a, ha, hab⟩ | hbp
        · exact Or.inl ⟨a, List.mem_cons_of_mem _ ha, hab⟩
        · exact Or.inr hbp

theorem applyPoeOverride_distinct (p : Int) (dnid mode : Json)
    (l : List (List (String × Json))) (h : DistinctPortIdx l) :
    DistinctPortIdx (applyPoeOverride p dnid mode l) := by
  induction l with
  | nil =>
    rw [applyPoeOverride_nil_eval]
    exact List.pairwise_singleton _ _
  | cons m rest ih =>
    obtain ⟨hhead, htail⟩ := List.pairwise_cons.mp h
    by_cases hm : pyEq (objGetD m "port_idx" .null) (.num p) = true
    · unfold applyPoeOverride
      rw [if_pos hm]
      refine List.pairwise_cons.mpr ⟨?_, htail⟩
      intro b hb
      rw [overrideIdx_objSet_poe]
      exact hhead b hb
    · rw [Bool.not_eq_true] at hm
      unfold applyPoeOverride
      rw [if_neg (by simp [hm])]
      refine List.pairwise_cons.mpr ⟨?_, ih htail⟩
      intro b hb
      rcases applyPoeOverride_mem_idx p dnid mode rest b hb with ⟨a, ha, hab⟩ | hbp
      · rw [hab]
        exact hhead a ha
      · rw [hbp]
        exact hm

theorem set_port_poe_mode_eval (d : List (String × Json)) (ovJson : List Json)
    (ovs : List (List (String × Json))) (p : Int) (mode : Json)
    (hid : pyTruthy (objGetD d "_id" .null) = true)
    (hov : objGetD d "port_overrides" (.arr []) = .arr ovJson)
    (hd : toDicts ovJson = .ok ovs) :
    (∀ putAnswer : Json,
      set_port_poe_mode (.ok (some (.obj d))) (.ok putAnswer) p mode =
        .ok (true, some (.obj [("port_overrides",
          .arr ((applyPoeOverride p (objGetD d "last_connection_network_id" (.str ""))
            mode ovs).map Json.obj))]))) ∧
    (∀ msg : String,
      set_port_poe_mode (.ok (some (.obj d))) (.error (.apiError msg)) p mode =
        .ok (false, some (.obj [("port_overrides",
          .arr ((applyPoeOverride p (objGetD d "last_connection_network_id" (.str ""))
            mode ovs).map Json.obj))]))) := by
  simp only [objGetD] at hid hov ⊢
  constructor
  · intro putAnswer
    simp [set_port_poe_mode, pyDictGet, pyIterList, hid, hov, hd,
      except_ok_bind, except_pure_eq]
  · intro msg
    simp [set_port_poe_mode, pyDictGet, pyIterList, hid, hov, hd,
      except_ok_bind, except_pure_eq]

end UniFi

/-- C3: when no existing override matches the target port, the PUT body's
`port_overrides` equals the original list (entries untouched, in order)
plus exactly one appended entry carrying the target `port_idx`, the
device's default network id, `forward: "all"` and the requested
`poe_mode`. -/
theorem C3_set_port_poe_mode_appends_new_override :
    ∀ (d : List (String × PyModel.Json)) (ovJson : List PyModel.Json)
      (ovs : List (List (String × PyModel.Json))) (p : Int)
      (mode putAnswer : PyModel.Json),
      PyModel.pyTruthy (PyModel.objGetD d "_id" .null) = true →
      PyModel.objGetD d "port_overrides" (.arr []) = .arr ovJson →
      UniFi.toDicts ovJson = .ok ovs →
      (∀ m ∈ ovs, PyModel.pyEq (UniFi.overrideIdx m) (.num p) = false) →
      UniFi.set_port_poe_mode (.ok (some (.obj d))) (.ok putAnswer) p mode =
        .ok (true, some (.obj [("port_overrides",
          .arr ((ovs ++ [[("port_idx", .num p),
            ("native_networkconf_id",
              PyModel.objGetD d "last_connection_network_id" (.str "")),
            ("forward", .str "all"), ("poe_mode", mode)]]).map PyModel.Json.obj))])) := by
  intro d ovJson ovs p mode putAnswer hid hov hd hnone
  have happ := UniFi.applyPoeOverride_append p
    (PyModel.objGetD d "last_connection_network_id" (.str "")) mode ovs hnone
  have heval := (UniFi.set_port_poe_mode_eval d ovJson ovs p mode hid hov hd).1 putAnswer
  rw [happ] at heval
  exact heval

/-- C3 witness: calling with `port_idx = 3`, `mode = "off"` on the concrete
device PUTs the original override untouched plus the single new
`port_idx = 3, poe_mode = "off"` entry. -/
theorem C3_set_port_poe_mode_appends_new_override_witness :
    UniFi.set_port_poe_mode (.ok (some (.obj c3Device))) (.ok (.obj []))
        3 (.str "off") =
      .ok (true, some (.obj [("port_overrides",
        .arr [.obj [("port_idx", .num 1), ("poe_mode", .str "auto")],
          .obj [("port_idx", .num 3), ("native_networkconf_id", .str "net1"),
            ("forward", .str "all"), ("poe_mode", .str "off")]])])) :=
  C3_set_port_poe_mode_appends_new_override c3Device
    [.obj [("port_idx", .num 1), ("poe_mode", .str "auto")]]
    [[("port_idx", .num 1), ("poe_mode", .str "auto")]]
    3 (.str "off") (.obj []) (by decide) rfl rfl (by decide)

/-- C6: the at-most-one-override-per-`port_idx` invariant is preserved by
the find-or-create/update step of `set_port_poe_mode`: on a pairwise
`port_idx`-distinct list it updates the matching entry in place or appends
one new entry, and the resulting list is again pairwise distinct. -/
theorem C6_port_override_invariant_preserved :
    ∀ (p : Int) (dnid mode : PyModel.Json)
      (l : List (List (String × PyModel.Json))),
      UniFi.DistinctPortIdx l →
      UniFi.DistinctPortIdx (UniFi.applyPoeOverride p dnid mode l) :=
  fun p dnid mode l h => UniFi.applyPoeOverride_distinct p dnid mode l h

/-- C6 witness: a two-entry distinct override list stays distinct after an
update on port 2 and after an append on port 3. -/
theorem C6_port_override_invariant_preserved_witness :
    UniFi.DistinctPortIdx [[("port_idx", .num 1)], [("port_idx", .num 2)]] ∧
    UniFi.DistinctPortIdx (UniFi.applyPoeOverride 3 (.str "net1") (.str "off")
      [[("port_idx", .num 1)], [("port_idx", .num 2)]]) ∧
    UniFi.DistinctPortIdx (UniFi.applyPoeOverride 2 (.str "net1") (.str "off")
      [[("port_idx", .num 1)], [("port_idx", .num 2)]]) :=
  ⟨by unfold UniFi.DistinctPortIdx; decide,
    C6_port_override_invariant_preserved 3 (.str "net1") (.str "off") _
      (by unfold UniFi.DistinctPortIdx; decide),
    C6_port_override_invariant_preserved 2 (.str "net1") (.str "off") _
      (by unfold UniFi.DistinctPortIdx; decide)⟩

set_option maxHeartbeats 800000 in
/-- C4: a power-cycle response whose `meta.rc` is `"ok"` makes
`restart_poe_port` return `True` with no further action; a response whose
`meta.rc` is `"error"` triggers the manual fallback, issuing exactly one
`set_port_poe_mode` call with `"off"`, the `asyncio.sleep(delay)`, and
exactly one call with the previously observed mode; and the previously
observed mode is the `poe_mode` (default `"auto"`) of the first port-table
entry matching `port_idx`, or `"auto"` when none matches. -/
theorem C4_restart_poe_port_behaviour :
    (∀ (r m : List (String × PyModel.Json)) (fetch : Except PyModel.PyErr (Option PyModel.Json))
      (offRes onRes : Except PyModel.PyErr Bool) (delay : ℚ) (p : Int),
      PyModel.lookupKey r "meta" = some (.obj m) →
      PyModel.lookupKey m "rc" = some (.str "ok") →
      UniFi.restart_poe_port (.ok (.obj r)) fetch offRes onRes delay p =
        .ok (true, [.powerCycle])) ∧
    (∀ (r m d : List (String × PyModel.Json)) (ports : List PyModel.Json)
      (cur : PyModel.Json) (b : Bool) (delay : ℚ) (p : Int),
      PyModel.lookupKey r "meta" = some (.obj m) →
      PyModel.lookupKey m "rc" = some (.str "error") →
      PyModel.objGetD d "port_table" (.arr []) = .arr ports →
      UniFi.findCurrentMode ports p = .ok cur →
      UniFi.restart_poe_port (.ok (.obj r)) (.ok (some (.obj d))) (.ok true) (.ok b)
          delay p =
        .ok (b, [.powerCycle, .setPoe (.str "off"), .sleepFor delay, .setPoe cur])) ∧
    (∀ (ports : List PyModel.Json) (p : Int) (m : List (String × PyModel.Json)),
      PyModel.pyEq (UniFi.overrideIdx m) (.num p) = true →
      UniFi.findCurrentMode (.obj m :: ports) p =
        .ok (PyModel.objGetD m "poe_mode" (.str "auto"))) ∧
    (∀ (ports : List PyModel.Json) (p : Int) (m : List (String × PyModel.Json)),
      PyModel.pyEq (UniFi.overrideIdx m) (.num p) = false →
      UniFi.findCurrentMode (.obj m :: ports) p = UniFi.findCurrentMode ports p) ∧
    (∀ p : Int, UniFi.findCurrentMode [] p = .ok (.str "auto")) := by
  refine ⟨?_, ?_, ?_, ?_, ?_⟩
  · intro r m fetch offRes onRes delay p hm hrc
    simp [UniFi.restart_poe_port, PyModel.pyDictGet, hm, hrc, PyModel.objGetD,
      PyModel.pyEq, PyModel.except_ok_bind, PyModel.except_pure_eq]
  · intro r m d ports cur b delay p hm hrc hpt hfind
    simp only [PyModel.objGetD] at hpt
    cases b <;>
      simp [UniFi.restart_poe_port, PyModel.pyDictGet, PyModel.pyIterList, hm, hrc,
        hpt, hfind, PyModel.objGetD, PyModel.pyEq,
        PyModel.except_ok_bind, PyModel.except_pure_eq]
  · intro ports p m hmatch
    unfold UniFi.overrideIdx at hmatch
    simp [UniFi.findCurrentMode, hmatch]
  · intro ports p m hmatch
    unfold UniFi.overrideIdx at hmatch
    simp [UniFi.findCurrentMode, hmatch]
  · intro p
    rfl

/-- C4 witness: both branches at concrete inputs — an `rc = "ok"` response
stops after the power-cycle, an `rc = "error"` response leads to the
off / sleep / previous-mode ("auto24") sequence. -/
theorem C4_restart_poe_port_behaviour_witness :
    UniFi.restart_poe_port (.ok (.obj [("meta", .obj [("rc", .str "ok")])]))
        (.ok none) (.ok true) (.ok true) 5 3 = .ok (true, [.powerCycle]) ∧
    UniFi.restart_poe_port (.ok (.obj [("meta", .obj [("rc", .str "error")])]))
        (.ok (some (.obj [("port_table",
          .arr [.obj [("port_idx", .num 3), ("poe_mode", .str "auto24")]])])))
        (.ok true) (.ok true) 5 3 =
      .ok (true, [.powerCycle, .setPoe (.str "off"), .sleepFor 5,
        .setPoe (.str "auto24")]) :=
  ⟨C4_restart_poe_port_behaviour.1 [("meta", .obj [("rc", .str "ok")])]
      [("rc", .str "ok")] (.ok none) (.ok true) (.ok true) 5 3 rfl rfl,
    C4_restart_poe_port_behaviour.2.1 [("meta", .obj [("rc", .str "error")])]
      [("rc", .str "error")]
      [("port_table", .arr [.obj [("port_idx", .num 3), ("poe_mode", .str "auto24")]])]
      [.obj [("port_idx", .num 3), ("poe_mode", .str "auto24")]]
      (.str "auto24") true 5 3 rfl rfl rfl rfl⟩

/-- C5 counterexample: `set_port_poe_mode` does not convert every API-level
failure into `False` — when the device lookup comes back empty it raises
`UniFiAPIError("Device not found")`, an exception escaping to the caller
instead of a `False` return. -/
theorem C5_set_port_poe_mode_raises_counterexample :
    UniFi.set_port_poe_mode (.ok none) (.ok (.obj [])) 3 (.str "off") =
      .error (.apiError "Device not found") ∧
    (Except.error (PyModel.PyErr.apiError "Device not found") ≠
      (.ok (false, none) : Except PyModel.PyErr (Bool × Option PyModel.Json))) :=
  ⟨rfl, fun h => Except.noConfusion h⟩

/-- C5 amended: only the PUT step of `set_port_poe_mode` is guarded — an
API error there yields `False` — while fetch-phase exceptions and a missing
device propagate as raises; in `restart_poe_port` a failing "off" step
short-circuits (no sleep, no "on" call) with `False`, but a missing device
in the fallback again raises rather than returning `False`. -/
theorem C5_error_handling_characterization :
    (∀ (e : PyModel.PyErr) (putRes : Except PyModel.PyErr PyModel.Json)
      (p : Int) (mode : PyModel.Json),
      UniFi.set_port_poe_mode (.error e) putRes p mode = .error e) ∧
    (∀ (putRes : Except PyModel.PyErr PyModel.Json) (p : Int) (mode : PyModel.Json),
      UniFi.set_port_poe_mode (.ok none) putRes p mode =
        .error (.apiError "Device not found")) ∧
    (∀ (d : List (String × PyModel.Json)) (ovJson : List PyModel.Json)
      (ovs : List (List (String × PyModel.Json))) (p : Int)
      (mode : PyModel.Json) (msg : String),
      PyModel.pyTruthy (PyModel.objGetD d "_id" .null) = true →
      PyModel.objGetD d "port_overrides" (.arr []) = .arr ovJson →
      UniFi.toDicts ovJson = .ok ovs →
      UniFi.set_port_poe_mode (.ok (some (.obj d))) (.error (.apiError msg)) p mode =
        .ok (false, some (.obj [("port_overrides",
          .arr ((UniFi.applyPoeOverride p
            (PyModel.objGetD d "last_connection_network_id" (.str "")) mode ovs).map
              PyModel.Json.obj))]))) ∧
    (∀ (msg : String) (d : List (String × PyModel.Json)) (ports : List PyModel.Json)
      (cur : PyModel.Json) (onRes : Except PyModel.PyErr Bool) (delay : ℚ) (p : Int),
      PyModel.objGetD d "port_table" (.arr []) = .arr ports →
      UniFi.findCurrentMode ports p = .ok cur →
      UniFi.restart_poe_port (.error (.apiError msg)) (.ok (some (.obj d)))
          (.ok false) onRes delay p =
        .ok (false, [.powerCycle, .setPoe (.str "off")])) ∧
    (∀ (msg : String) (offRes onRes : Except PyModel.PyErr Bool) (delay : ℚ) (p : Int),
      UniFi.restart_poe_port (.error (.apiError msg)) (.ok none) offRes onRes delay p =
        .error (.apiError "Device not found")) := by
  refine ⟨?_, ?_, ?_, ?_, ?_⟩
  · intro e putRes p mode
    rfl
  · intro putRes p mode
    rfl
  · intro d ovJson ovs p mode msg hid hov hd
    exact (UniFi.set_port_poe_mode_eval d ovJson ovs p mode hid hov hd).2 msg
  · intro msg d ports cur onRes delay p hpt hfind
    simp only [PyModel.objGetD] at hpt
    simp [UniFi.restart_poe_port, PyModel.pyDictGet, PyModel.pyIterList, hpt, hfind,
      PyModel.except_ok_bind, PyModel.except_pure_eq]
  · intro msg offRes onRes delay p
    rfl

/-- C5 witness: a failing PUT on the concrete device returns `False` with
the body it sent, and a failed off-step in the fallback short-circuits. -/
theorem C5_error_handling_characterization_witness :
    UniFi.set_port_poe_mode (.ok (some (.obj c3Device))) (.error (.apiError "500"))
        3 (.str "off") =
      .ok (false, some (.obj [("port_overrides",
        .arr [.obj [("port_idx", .num 1), ("poe_mode", .str "auto")],
          .obj [("port_idx", .num 3), ("native_networkconf_id", .str "net1"),
            ("forward", .str "all"), ("poe_mode", .str "off")]])])) ∧
    UniFi.restart_poe_port (.error (.apiError "boom"))
        (.ok (some (.obj [("port_table", .arr [])]))) (.ok false) (.ok true) 5 3 =
      .ok (false, [.powerCycle, .setPoe (.str "off")]) :=
  ⟨C5_error_handling_characterization.2.2.1 c3Device
      [.obj [("port_idx", .num 1), ("poe_mode", .str "auto")]]
      [[("port_idx", .num 1), ("poe_mode", .str "auto")]]
      3 (.str "off") "500" (by decide) rfl rfl,
    C5_error_handling_characterization.2.2.2.1 "boom" [("port_table", .arr [])]
      [] (.str "auto") (.ok true) 5 3 rfl rfl⟩

namespace UniFi

open PyModel

theorem lookupKey_objSet_self (l : List (String × Json)) (k : String) (v : Json) :
    lookupKey (objSet l k v) k = some v := by
  induction l with
  | nil => simp [objSet, lookupKey]
  | cons p rest ih =>
    obtain ⟨k0, v0⟩ := p
    by_cases h0 : k0 = k
    · subst h0
      simp [objSet, lookupKey]
    · simp [objSet, lookupKey, h0, ih]

theorem pyLower_eq_empty_iff (s : String) : pyLower s = "" ↔ s = "" := by
  constructor
  · intro h
    have hd : (pyLower s).data = ("" : String).data := congrArg String.data h
    have hd2 : s.data.map lowerChar = [] := hd
    have : s.data = [] := List.map_eq_nil_iff.mp hd2
    cases s
    simp at this
    simp [this]
  · intro h
    subst h
    rfl

theorem normChar_ne_sep (c : Char) : normChar c ≠ '-' ∧ normChar c ≠ '_' := by
  unfold normChar
  by_cases h1 : lowerChar c = '-' <;> by_cases h2 : lowerChar c = '_' <;>
    simp [h1, h2]

theorem normalizeMac_no_sep (mac : String) :
    '-' ∉ (normalizeMac mac).data ∧ '_' ∉ (normalizeMac mac).data := by
  rw [normalizeMac_eq_map]
  constructor
  · intro hmem
    obtain ⟨c, _, hc⟩ := List.mem_map.mp hmem
    exact (normChar_ne_sep c).1 hc
  · intro hmem
    obtain ⟨c, _, hc⟩ := List.mem_map.mp hmem
    exact (normChar_ne_sep c).2 hc

theorem mem_pyLower_of_fixed {c : Char} {s : String} (hc : lowerChar c = c)
    (hmem : c ∈ s.data) : c ∈ (pyLower s).data := by
  have : lowerChar c ∈ s.data.map lowerChar := List.mem_map_of_mem lowerChar hmem
  rw [hc] at this
  exact this

theorem cacheDevices_spec : ∀ (devices : List Json) (cache : List (String × Json)),
    DevWf devices → ∀ k : String,
    ∃ c2, cacheDevices devices cache = .ok c2 ∧
      ((lookupKey c2 k).isSome ↔ ((lookupKey cache k).isSome ∨ MacMatch devices k)) ∧
      (∀ d, lookupKey c2 k = some d →
        lookupKey cache k = some d ∨ DevHasKey devices k d)
  | [], cache, _, k => by
    refine ⟨cache, rfl, ?_, fun d hd => Or.inl hd⟩
    simp [MacMatch]
  | dev :: rest, cache, h, k => by
    obtain ⟨dm, rfl, s, hs⟩ := h dev (List.mem_cons_self dev rest)
    have hrest : DevWf rest := fun x hx => h x (List.mem_cons_of_mem _ hx)
    by_cases hm : pyLower s = ""
    · obtain ⟨c2, hc2, hiff, hmem⟩ := cacheDevices_spec rest cache hrest k
      refine ⟨c2, ?_, ?_, ?_⟩
      · simp [cacheDevices, pyDictGet, hs, hm, hc2, except_ok_bind]
      · rw [hiff]
        constructor
        · rintro (hc | hmm2)
          · exact Or.inl hc
          · obtain ⟨dm', s', hmem', hs', hk', hne'⟩ := hmm2
            exact Or.inr ⟨dm', s', List.mem_cons_of_mem _ hmem', hs', hk', hne'⟩
        · rintro (hc | hmm2)
          · exact Or.inl hc
          · obtain ⟨dm', s', hmem', hs', hk', hne'⟩ := hmm2
            rcases List.mem_cons.mp hmem' with heq | hmem''
            · have hdm : dm' = dm := by
                have := PyModel.Json.obj.inj heq
                exact this
              subst hdm
              rw [hs] at hs'
              have hss : s' = s := PyModel.Json.str.inj hs'.symm
              subst hss
              exact absurd hm hne'
            · exact Or.inr ⟨dm', s', hmem'', hs', hk', hne'⟩
      · intro d hd
        rcases hmem d hd with hcache | hdev
        · exact Or.inl hcache
        · obtain ⟨dm', s', rfl, hmem', hs', hk', hne'⟩ := hdev
          exact Or.inr ⟨dm', s', rfl, List.mem_cons_of_mem _ hmem', hs', hk', hne'⟩
    · obtain ⟨c2, hc2, hiff, hmem⟩ :=
        cacheDevices_spec rest (objSet cache (pyLower s) (.obj dm)) hrest k
      refine ⟨c2, ?_, ?_, ?_⟩
      · simp [cacheDevices, pyDictGet, hs, hm, hc2, except_ok_bind]
      · rw [hiff]
        by_cases hk : pyLower s = k
        · subst hk
          constructor
          · intro _
            exact Or.inr ⟨dm, s, List.mem_cons_self _ _, hs, rfl, hm⟩
          · intro _
            left
            rw [lookupKey_objSet_self]
            rfl
        · rw [lookupKey_objSet_ne cache (pyLower s) (.obj dm) k fun he => hk he.symm]
          constructor
          · rintro (hc | hmm2)
            · exact Or.inl hc
            · obtain ⟨dm', s', hmem', hs', hk', hne'⟩ := hmm2
              exact Or.inr ⟨dm', s', List.mem_cons_of_mem _ hmem', hs', hk', hne'⟩
          · rintro (hc | hmm2)
            · exact Or.inl hc
            · obtain ⟨dm', s', hmem', hs', hk', hne'⟩ := hmm2
              rcases List.mem_cons.mp hmem' with heq | hmem''
              · have hdm : dm' = dm := PyModel.Json.obj.inj heq
                subst hdm
                rw [hs] at hs'
                have hss : s' = s := PyModel.Json.str.inj hs'.symm
                subst hss
                exact absurd hk' hk
              · exact Or.inr ⟨dm', s', hmem'', hs', hk', hne'⟩
      · intro d hd
        rcases hmem d hd with hcache | hdev
        · by_cases hk : pyLower s = k
          · subst hk
            rw [lookupKey_objSet_self] at hcache
            have hde : Json.obj dm = d := Option.some.inj hcache
            exact Or.inr ⟨dm, s, hde.symm, List.mem_cons_self _ _, hs, rfl, hm⟩
          · rw [lookupKey_objSet_ne cache (pyLower s) (.obj dm) k
              fun he => hk he.symm] at hcache
            exact Or.inl hcache
        · obtain ⟨dm', s', rfl, hmem', hs', hk', hne'⟩ := hdev
          exact Or.inr ⟨dm', s', rfl, List.mem_cons_of_mem _ hmem', hs', hk', hne'⟩

end UniFi

/-- C10 counterexample: the claimed equivalence fails for a device whose
`mac` field is the empty string — the empty lowered mac equals the
normalized empty query verbatim, yet `get_devices` skips caching it
(`if mac:`), so the lookup finds nothing. -/
theorem C10_empty_mac_counterexample :
    UniFi.get_device_by_mac [] [.obj [("mac", .str "")]] "" = .ok (none, []) ∧
    PyModel.pyLower "" = UniFi.normalizeMac "" :=
  ⟨rfl, rfl⟩

/-- C10 amended: a cache-miss lookup finds a device iff some device's
`mac` field is a non-empty string whose lowercased form equals the
lowercased, colon-normalized query verbatim; consequently a found device's
mac never contains `-` or `_` separators. -/
theorem C10_cache_lookup_characterization :
    (∀ (devices : List PyModel.Json) (mac : String),
      UniFi.DevWf devices →
      ∃ r c2, UniFi.get_device_by_mac [] devices mac = .ok (r, c2) ∧
        (r.isSome ↔ ∃ dm s, PyModel.Json.obj dm ∈ devices ∧
          (PyModel.lookupKey dm "mac").getD (.str "") = .str s ∧
          s ≠ "" ∧ PyModel.pyLower s = UniFi.normalizeMac mac)) ∧
    (∀ (devices : List PyModel.Json) (mac : String) (r : Option PyModel.Json)
      (c2 : List (String × PyModel.Json)) (dm : List (String × PyModel.Json))
      (s : String),
      UniFi.DevWf devices →
      UniFi.get_device_by_mac [] devices mac = .ok (r, c2) →
      r = some (.obj dm) →
      (PyModel.lookupKey dm "mac").getD (.str "") = .str s →
      ¬('-' ∈ s.data ∨ '_' ∈ s.data)) := by
  have hmain : ∀ (devices : List PyModel.Json) (mac : String),
      UniFi.DevWf devices →
      ∃ c2, UniFi.get_device_by_mac [] devices mac =
          .ok (PyModel.lookupKey c2 (UniFi.normalizeMac mac), c2) ∧
        ((PyModel.lookupKey c2 (UniFi.normalizeMac mac)).isSome ↔
          UniFi.MacMatch devices (UniFi.normalizeMac mac)) ∧
        (∀ d, PyModel.lookupKey c2 (UniFi.normalizeMac mac) = some d →
          UniFi.DevHasKey devices (UniFi.normalizeMac mac) d) := by
    intro devices mac hwf
    obtain ⟨c2, hc2, hiff, hmem⟩ :=
      UniFi.cacheDevices_spec devices [] hwf (UniFi.normalizeMac mac)
    refine ⟨c2, ?_, ?_, ?_⟩
    · simp [UniFi.get_device_by_mac, PyModel.lookupKey, hc2, PyModel.except_ok_bind]
    · rw [hiff]
      simp [PyModel.lookupKey]
    · intro d hd
      rcases hmem d hd with hcache | hdev
      · simp [PyModel.lookupKey] at hcache
      · exact hdev
  constructor
  · intro devices mac hwf
    obtain ⟨c2, hrun, hiff, _⟩ := hmain devices mac hwf
    refine ⟨PyModel.lookupKey c2 (UniFi.normalizeMac mac), c2, hrun, ?_⟩
    rw [hiff]
    unfold UniFi.MacMatch
    constructor
    · rintro ⟨dm, s, hmem, hs, hk, hne⟩
      exact ⟨dm, s, hmem, hs, fun he => hne ((UniFi.pyLower_eq_empty_iff s).mpr he), hk⟩
    · rintro ⟨dm, s, hmem, hs, hne, hk⟩
      exact ⟨dm, s, hmem, hs, hk,
        fun he => hne ((UniFi.pyLower_eq_empty_iff s).mp he)⟩
  · intro devices mac r c2 dm s hwf hrun hr hs
    obtain ⟨c2', hrun', _, hmem'⟩ := hmain devices mac hwf
    rw [hrun] at hrun'
    have hpair := Except.ok.inj hrun'
    have hr2 : r = PyModel.lookupKey c2' (UniFi.normalizeMac mac) :=
      congrArg Prod.fst hpair
    have hlk : PyModel.lookupKey c2' (UniFi.normalizeMac mac) = some (.obj dm) := by
      rw [← hr2, hr]
    obtain ⟨dm', s', hde, hmemDev, hs', hk', hne'⟩ := hmem' (.obj dm) hlk
    have hdm : dm = dm' := PyModel.Json.obj.inj hde
    subst hdm
    rw [hs] at hs'
    have hss : s = s' := PyModel.Json.str.inj hs'
    rw [← hss] at hk'
    rintro (hdash | hund)
    · have h1 : '-' ∈ (PyModel.pyLower s).data :=
        UniFi.mem_pyLower_of_fixed (by decide) hdash
      rw [hk'] at h1
      exact (UniFi.normalizeMac_no_sep mac).1 h1
    · have h1 : '_' ∈ (PyModel.pyLower s).data :=
        UniFi.mem_pyLower_of_fixed (by decide) hund
      rw [hk'] at h1
      exact (UniFi.normalizeMac_no_sep mac).2 h1

/-- C10 witness: the characterization applied to a one-device list; the
dashed uppercase query normalizes to the device's colon-separated
lowercase mac, so the lookup succeeds. -/
theorem C10_cache_lookup_characterization_witness :
    UniFi.DevWf [.obj [("mac", .str "aa:bb:cc:dd:ee:ff")]] ∧
    (∃ r c2, UniFi.get_device_by_mac []
        [.obj [("mac", .str "aa:bb:cc:dd:ee:ff")]] "AA-BB-CC-DD-EE-FF" =
          .ok (r, c2) ∧
      (r.isSome ↔ ∃ dm s,
        PyModel.Json.obj dm ∈
          [PyModel.Json.obj [("mac", PyModel.Json.str "aa:bb:cc:dd:ee:ff")]] ∧
        (PyModel.lookupKey dm "mac").getD (.str "") = .str s ∧
        s ≠ "" ∧ PyModel.pyLower s = UniFi.normalizeMac "AA-BB-CC-DD-EE-FF")) := by
  have hwf : UniFi.DevWf [.obj [("mac", .str "aa:bb:cc:dd:ee:ff")]] := by
    intro d hd
    simp at hd
    subst hd
    exact ⟨[("mac", .str "aa:bb:cc:dd:ee:ff")], rfl, "aa:bb:cc:dd:ee:ff", rfl⟩
  exact ⟨hwf, C10_cache_lookup_characterization.1 _ "AA-BB-CC-DD-EE-FF" hwf⟩

set_option maxHeartbeats 1600000 in
/-- C7 counterexample: decryption does not use the stored shared secret as
the AES key — it uses the first 32 bytes of the base64url-decoded `ck`
field of the response.  With a spy cipher that returns its key argument,
the observed key is the 32 zero bytes decoded from `ck`, identical for two
different stored secrets and different from both. -/
theorem C7_key_not_stored_secret_counterexample :
    NokiaAPI.decrypt_response (List.replicate 32 1)
        (fun key _ _ _ => some key)
        (fun pt => some (.arr (pt.map fun n => .num (Int.ofNat n))))
        NokiaAPI.c7ct NokiaAPI.c7ck =
      some (.arr ((List.replicate 32 0).map fun n => PyModel.Json.num (Int.ofNat n))) ∧
    NokiaAPI.decrypt_response (List.replicate 32 7)
        (fun key _ _ _ => some key)
        (fun pt => some (.arr (pt.map fun n => .num (Int.ofNat n))))
        NokiaAPI.c7ct NokiaAPI.c7ck =
      some (.arr ((List.replicate 32 0).map fun n => PyModel.Json.num (Int.ofNat n))) ∧
    List.replicate 32 (1 : Nat) ≠ List.replicate 32 0 ∧
    List.replicate 32 (7 : Nat) ≠ List.replicate 32 0 :=
  ⟨rfl, rfl, by decide, by decide⟩

namespace NokiaAPI

open PyModel

theorem takeWhile_of_all {p : Char → Bool} {l : List Char}
    (h : ∀ c ∈ l, p c = true) : l.takeWhile p = l := by
  induction l with
  | nil => rfl
  | cons c cs ih =>
    have hc := h c (List.mem_cons_self c cs)
    have ih2 := ih fun x hx => h x (List.mem_cons_of_mem _ hx)
    simp [List.takeWhile, hc, ih2]

theorem takeWhile_append_stop {p : Char → Bool} {l : List Char} {x : Char}
    (l2 : List Char) (h : ∀ c ∈ l, p c = true) (hx : p x = false) :
    (l ++ x :: l2).takeWhile p = l := by
  induction l with
  | nil => simp [List.takeWhile, hx]
  | cons c cs ih =>
    have hc := h c (List.mem_cons_self c cs)
    have ih2 := ih fun y hy => h y (List.mem_cons_of_mem _ hy)
    simp [List.takeWhile, hc, ih2]

theorem scanFor_skip (key stops : List Char) : ∀ (l suffix : List Char),
    (∀ t ∈ l.tails, t ≠ [] → key.isPrefixOf (t ++ suffix) = false) →
    scanFor key stops (l ++ suffix) = scanFor key stops suffix
  | [], _, _ => rfl
  | c :: cs, suffix, h => by
    have hhead : key.isPrefixOf ((c :: cs) ++ suffix) = false :=
      h (c :: cs) (by rw [List.tails_cons]; exact List.mem_cons_self _ _)
        (List.cons_ne_nil c cs)
    have hrec := scanFor_skip key stops cs suffix fun t ht hne =>
      h t (by rw [List.tails_cons]; exact List.mem_cons_of_mem _ ht) hne
    rw [List.cons_append, scanFor, if_neg, hrec]
    intro hcond
    rw [← List.cons_append, hhead] at hcond
    exact Bool.noConfusion hcond.1

theorem scanFor_found (k0 : Char) (ks stops run suffix2 : List Char)
    (hrun : run ≠ []) (hall : ∀ c ∈ run, (!stops.contains c) = true)
    (hstop : suffix2 = [] ∨ ∃ x l2, suffix2 = x :: l2 ∧ stops.contains x = true) :
    scanFor (k0 :: ks) stops ((k0 :: ks) ++ (run ++ suffix2)) =
      some (String.mk run) := by
  have hpre : (k0 :: ks).isPrefixOf ((k0 :: ks) ++ (run ++ suffix2)) = true := by
    rw [List.isPrefixOf_iff_prefix]
    exact List.prefix_append _ _
  have hdrop : ((k0 :: ks) ++ (run ++ suffix2)).drop (k0 :: ks).length =
      run ++ suffix2 := List.drop_left _ _
  have htake : (run ++ suffix2).takeWhile (fun ch => !stops.contains ch) = run := by
    rcases hstop with rfl | ⟨x, l2, rfl, hx⟩
    · rw [List.append_nil]
      exact takeWhile_of_all hall
    · exact takeWhile_append_stop l2 hall (by rw [hx]; rfl)
  rw [List.cons_append, scanFor]
  rw [← List.cons_append, hdrop, htake]
  rw [if_pos ⟨hpre, hrun⟩]

theorem alpha_ne_of_val_none {c x : Char} (h : B64Alpha c) (hx : b64Val x = none) :
    c ≠ x :=
  fun he => h (he ▸ hx)

theorem alpha_not_stop_ct {c : Char} (h : B64Alpha c) :
    (!ctStops.contains c) = true := by
  have h1 : c ≠ '&' := alpha_ne_of_val_none h rfl
  have h2 : c ≠ ' ' := alpha_ne_of_val_none h rfl
  have h3 : c ≠ '\t' := alpha_ne_of_val_none h rfl
  have h4 : c ≠ '\n' := alpha_ne_of_val_none h rfl
  have h5 : c ≠ '\r' := alpha_ne_of_val_none h rfl
  have h6 : c ≠ '\x0b' := alpha_ne_of_val_none h rfl
  have h7 : c ≠ '\x0c' := alpha_ne_of_val_none h rfl
  simp [ctStops, h1, h2, h3, h4, h5, h6, h7]

theorem alpha_not_stop_ck {c : Char} (h : B64Alpha c) :
    (!ckStops.contains c) = true := by
  have h1 : c ≠ '&' := alpha_ne_of_val_none h rfl
  have h2 : c ≠ ' ' := alpha_ne_of_val_none h rfl
  have h3 : c ≠ '\t' := alpha_ne_of_val_none h rfl
  have h4 : c ≠ '\n' := alpha_ne_of_val_none h rfl
  have h5 : c ≠ '\r' := alpha_ne_of_val_none h rfl
  have h6 : c ≠ '\x0b' := alpha_ne_of_val_none h rfl
  have h7 : c ≠ '\x0c' := alpha_ne_of_val_none h rfl
  have h8 : c ≠ '.' := alpha_ne_of_val_none h rfl
  simp [ckStops, h1, h2, h3, h4, h5, h6, h7, h8]

theorem skip_tag_ct (suffix : List Char) :
    ∀ t ∈ ("encrypted=1&".data).tails, t ≠ [] →
      ("ct=".data).isPrefixOf (t ++ suffix) = false := by
  intro t ht hne
  fin_cases ht <;> first | rfl | exact absurd rfl hne

theorem skip_preA_ck (suffix : List Char) :
    ∀ t ∈ ("encrypted=1&ct=".data).tails, t ≠ [] →
      ("ck=".data).isPrefixOf (t ++ suffix) = false := by
  intro t ht hne
  fin_cases ht <;> first | rfl | exact absurd rfl hne

theorem skip_ct_ck (ct : List Char) (halpha : ∀ c ∈ ct, B64Alpha c)
    (l2 : List Char) :
    ∀ t ∈ ct.tails, t ≠ [] →
      ("ck=".data).isPrefixOf (t ++ '&' :: l2) = false := by
  intro t ht hne
  have hsub : t ⊆ ct := ((List.mem_tails t ct).mp ht).subset
  cases t with
  | nil => exact absurd rfl hne
  | cons c1 t' =>
    cases t' with
    | nil =>
      show (['c', 'k', '='].isPrefixOf (c1 :: '&' :: l2)) = false
      simp [List.isPrefixOf]
    | cons c2 t'' =>
      cases t'' with
      | nil =>
        show (['c', 'k', '='].isPrefixOf (c1 :: c2 :: '&' :: l2)) = false
        simp [List.isPrefixOf]
      | cons c3 t3 =>
        have hc3 : c3 ∈ ct := hsub (by simp)
        have hne3 : c3 ≠ '=' := fun he => (halpha c3 hc3) (by rw [he]; rfl)
        have hb : ('=' == c3) = false := beq_eq_false_iff_ne.mpr (Ne.symm hne3)
        show (['c', 'k', '='].isPrefixOf (c1 :: c2 :: c3 :: (t3 ++ '&' :: l2))) = false
        simp [List.isPrefixOf, hb]

theorem scan_ct_eq (ct l2 : List Char) (hct : ct ≠ [])
    (halpha : ∀ c ∈ ct, B64Alpha c) :
    scanFor "ct=".data ctStops
        ("encrypted=1&".data ++ ("ct=".data ++ (ct ++ '&' :: l2))) =
      some (String.mk ct) := by
  rw [scanFor_skip "ct=".data ctStops "encrypted=1&".data _ (skip_tag_ct _)]
  have hfound := scanFor_found 'c' ['t', '='] ctStops ct ('&' :: l2) hct
    (fun c hc => alpha_not_stop_ct (halpha c hc))
    (Or.inr ⟨'&', l2, rfl, by decide⟩)
  exact hfound

theorem scan_ck_eq (ct ck : List Char) (hck : ck ≠ [])
    (hctAlpha : ∀ c ∈ ct, B64Alpha c) (hckAlpha : ∀ c ∈ ck, B64Alpha c) :
    scanFor "ck=".data ckStops
        ("encrypted=1&ct=".data ++ (ct ++ '&' :: ("ck=".data ++ ck))) =
      some (String.mk ck) := by
  rw [scanFor_skip "ck=".data ckStops "encrypted=1&ct=".data _ (skip_preA_ck _)]
  rw [scanFor_skip "ck=".data ckStops ct _ (skip_ct_ck ct hctAlpha _)]
  have hamp : ∀ t ∈ (['&'] : List Char).tails, t ≠ [] →
      ("ck=".data).isPrefixOf (t ++ ("ck=".data ++ ck)) = false := by
    intro t ht hne
    fin_cases ht <;> first | rfl | exact absurd rfl hne
  have hskip3 := scanFor_skip "ck=".data ckStops ['&'] ("ck=".data ++ ck) hamp
  rw [show ('&' :: ("ck=".data ++ ck)) = ['&'] ++ ("ck=".data ++ ck) from rfl, hskip3]
  have hfound := scanFor_found 'c' ['k', '='] ckStops ck [] hck
    (fun c hc => alpha_not_stop_ck (hckAlpha c hc)) (Or.inl rfl)
  rw [List.append_nil] at hfound
  exact hfound

theorem containsSub_of_isPrefix (needle l : List Char)
    (h : needle.isPrefixOf l = true) : containsSub needle l = true := by
  cases l with
  | nil =>
    cases needle with
    | nil => rfl
    | cons c cs => exact absurd h (by simp [List.isPrefixOf])
  | cons c rest => simp [containsSub, h]

end NokiaAPI

/-- C7 amended: for every canonical encrypted response
`"encrypted=1&ct=" ++ ct ++ "&ck=" ++ ck` (with `ct`, `ck` non-empty
base64url words), the client extracts exactly `ct` and `ck` by the pattern
match and decrypts; the decryption passes the cipher the FIRST 32 BYTES OF
THE DECODED `ck` as key (not the stored secret, on which the result
provably does not depend), the leading 12 bytes of the decoded `ct` blob
as IV and the trailing 16 as tag; a response without the `encrypted=1`
tag, a cipher failure, or any decode failure yields `None` rather than an
exception. -/
theorem C7_encrypted_response_pipeline :
    (∀ (secret : List Nat)
      (aes : List Nat → List Nat → List Nat → List Nat → Option (List Nat))
      (jp : List Nat → Option PyModel.Json) (ct ck : String),
      ct.data ≠ [] → ck.data ≠ [] →
      (∀ c ∈ ct.data, NokiaAPI.B64Alpha c) → (∀ c ∈ ck.data, NokiaAPI.B64Alpha c) →
      NokiaAPI.parse_encrypted_response secret aes jp
          ("encrypted=1&ct=" ++ ct ++ "&ck=" ++ ck) =
        NokiaAPI.decrypt_response secret aes jp ct ck) ∧
    (∀ (secret : List Nat)
      (aes : List Nat → List Nat → List Nat → List Nat → Option (List Nat))
      (jp : List Nat → Option PyModel.Json) (text : String),
      PyModel.containsSub "encrypted=1".data text.data = false →
      NokiaAPI.parse_encrypted_response secret aes jp text = none) ∧
    (∀ (secret : List Nat)
      (aes : List Nat → List Nat → List Nat → List Nat → Option (List Nat))
      (jp : List Nat → Option PyModel.Json) (ct ck : String)
      (enc kb : List Nat),
      NokiaAPI.b64urlDecode (NokiaAPI.padB64 ct) = some enc →
      NokiaAPI.b64urlDecode (NokiaAPI.padB64 ck) = some kb →
      NokiaAPI.decrypt_response secret aes jp ct ck =
        (aes (kb.take 32) (enc.take 12) (enc.drop (enc.length - 16))
          ((enc.drop 12).take (enc.length - 16 - 12))).bind jp) ∧
    (∀ (secret : List Nat) (jp : List Nat → Option PyModel.Json) (ct ck : String),
      NokiaAPI.decrypt_response secret (fun _ _ _ _ => none) jp ct ck = none) ∧
    (∀ (s1 s2 : List Nat)
      (aes : List Nat → List Nat → List Nat → List Nat → Option (List Nat))
      (jp : List Nat → Option PyModel.Json) (ct ck : String),
      NokiaAPI.decrypt_response s1 aes jp ct ck =
        NokiaAPI.decrypt_response s2 aes jp ct ck) := by
  refine ⟨?_, ?_, ?_, ?_, ?_⟩
  · intro secret aes jp ct ck h1 h2 h3 h4
    have htext : ("encrypted=1&ct=" ++ ct ++ "&ck=" ++ ck).data =
        "encrypted=1&ct=".data ++ (ct.data ++ ('&' :: ("ck=".data ++ ck.data))) := by
      simp [String.data_append]
    have htext2 : "encrypted=1&ct=".data ++ (ct.data ++ ('&' :: ("ck=".data ++ ck.data))) =
        "encrypted=1&".data ++ ("ct=".data ++ (ct.data ++ '&' :: ("ck=".data ++ ck.data))) := by
      rw [show "encrypted=1&ct=".data = "encrypted=1&".data ++ "ct=".data from rfl]
      simp [List.append_assoc]
    have htag : PyModel.containsSub "encrypted=1".data
        ("encrypted=1&ct=" ++ ct ++ "&ck=" ++ ck).data = true := by
      apply NokiaAPI.containsSub_of_isPrefix
      rw [htext]
      rw [show "encrypted=1&ct=".data = "encrypted=1".data ++ "&ct=".data from rfl]
      rw [List.isPrefixOf_iff_prefix, List.append_assoc]
      exact List.prefix_append _ _
    have hct := NokiaAPI.scan_ct_eq ct.data ("ck=".data ++ ck.data) h1 h3
    have hck := NokiaAPI.scan_ck_eq ct.data ck.data h2 h3 h4
    unfold NokiaAPI.parse_encrypted_response
    rw [if_pos htag, htext, htext2, hct]
    rw [← htext2, hck]
  · intro secret aes jp text htag
    unfold NokiaAPI.parse_encrypted_response
    have hfalse : ¬(PyModel.containsSub "encrypted=1".data text.data = true) := by
      rw [htag]
      exact Bool.false_ne_true
    rw [if_neg hfalse]
  · intro secret aes jp ct ck enc kb henc hkb
    unfold NokiaAPI.decrypt_response
    rw [henc, hkb]
    cases haes : aes (List.take 32 kb) (List.take 12 enc)
        (List.drop (enc.length - 16) enc)
        (List.take (enc.length - 16 - 12) (List.drop 12 enc)) <;>
      simp [haes]
  · intro secret jp ct ck
    unfold NokiaAPI.decrypt_response
    cases NokiaAPI.b64urlDecode (NokiaAPI.padB64 ct) <;>
      cases NokiaAPI.b64urlDecode (NokiaAPI.padB64 ck) <;> rfl
  · intro s1 s2 aes jp ct ck
    rfl

/-- C7 witness: the pipeline applied to a concrete canonical response built
from the all-`'A'` test vectors, evaluated end to end with a spy cipher. -/
theorem C7_encrypted_response_pipeline_witness :
    NokiaAPI.parse_encrypted_response (List.replicate 32 1)
        (fun key _ _ _ => some key)
        (fun pt => some (.arr (pt.map fun n => .num (Int.ofNat n))))
        ("encrypted=1&ct=" ++ NokiaAPI.c7ct ++ "&ck=" ++ NokiaAPI.c7ck) =
      NokiaAPI.decrypt_response (List.replicate 32 1)
        (fun key _ _ _ => some key)
        (fun pt => some (.arr (pt.map fun n => .num (Int.ofNat n))))
        NokiaAPI.c7ct NokiaAPI.c7ck := by
  have h := C7_encrypted_response_pipeline.1 (List.replicate 32 1)
    (fun key _ _ _ => some key)
    (fun pt => some (.arr (pt.map fun n => .num (Int.ofNat n))))
    NokiaAPI.c7ct NokiaAPI.c7ck (by decide) (by decide)
    (by intro c hc; simp [NokiaAPI.c7ct] at hc; subst hc; intro hnone; exact Option.noConfusion hnone)
    (by intro c hc; simp [NokiaAPI.c7ck] at hc; subst hc; intro hnone; exact Option.noConfusion hnone)
  exact h
